import Mathlib

/-!
Verification of the origami game engine core: the session state machine,
entity simulation and problem generator (source: `engine.js`, `input.js`,
`enemies.js`).

Modelling conventions:
* JavaScript numbers are modelled as `ℚ` (exact rationals); integer-valued
  quantities (score, level, hp, enemy identity) use `Nat`/`Int`.
* `Math.random()` is modelled as a stream of rationals in `[0,1)`
  (`RandStream`); every call consumes the next stream element, so functions
  thread an index into the stream.  `Math.floor(Math.random() * n)` becomes
  `randFloor`.
* JavaScript object identity (the engine compares enemies by reference in
  `enemies.includes(target)` / `indexOf(target)`) is modelled by a per-enemy
  `id` drawn from a `nextId` counter in the state; a projectile's weak
  reference to its target is the target's `id`.
* DOM/canvas/audio writes are out of scope (spec §1); the discrete
  notifications of spec §6 (`playThemeSound` calls) are modelled as an event
  list (`Ev`) returned next to the new state.
* The unbounded retry recursion of `generateProblem` is modelled with an
  explicit `fuel` argument; `none` means the recursion did not terminate
  within `fuel` calls.
-/

/-- Game phase (`state.phase` strings in `engine.js`). -/
inductive Phase
  | menu
  | opening
  | playing
  | gameOver
deriving DecidableEq

/-- Discrete side-effect notifications (the `playThemeSound` cues of the
engine, spec §6). -/
inductive Ev
  | correct
  | incorrect
  | enemyHit
  | levelUp
  | bossSpawn
  | gameOver
  | victory
deriving DecidableEq

/-- Numeric tuning table (`this.config` in `engine.js`). -/
structure Config where
  MAX_ENEMIES : Nat
  BOSS_TRIGGER_SCORE : Nat
  BOSS_HP : Int
  BOSS_APPROACH_DURATION : ℚ
  ENEMY_SPAWN_INTERVAL_BASE : ℚ
  ENEMY_SPAWN_LEVEL_SCALAR : ℚ
  ENEMY_BASE_SPEED : ℚ
  ENEMY_TOUGH_SPEED_MODIFIER : ℚ
  ENEMY_LEVEL_SPEED_SCALAR : ℚ
  ENEMY_BASE_HP : Int
  ENEMY_TOUGH_HP_BONUS : Int
  ENEMY_LEVEL_HP_SCALAR : ℚ
  TOUGH_ENEMY_CHANCE_BASE : ℚ
  TOUGH_ENEMY_CHANCE_LEVEL_SCALAR : ℚ
  PROJECTILE_SPEED : ℚ
  SCORE_PER_CORRECT_ANSWER : Nat
  SCORE_PER_KILL : Nat
  SCORE_PER_TOUGH_KILL : Nat
  SCORE_TO_LEVEL_UP : Nat
deriving DecidableEq

/-- The default configuration values of the `GameEngine` constructor. -/
def defaultConfig : Config where
  MAX_ENEMIES := 3
  BOSS_TRIGGER_SCORE := 1500
  BOSS_HP := 6
  BOSS_APPROACH_DURATION := 15000
  ENEMY_SPAWN_INTERVAL_BASE := 1000
  ENEMY_SPAWN_LEVEL_SCALAR := 95/100
  ENEMY_BASE_SPEED := 5/100000
  ENEMY_TOUGH_SPEED_MODIFIER := 6/10
  ENEMY_LEVEL_SPEED_SCALAR := 108/100
  ENEMY_BASE_HP := 1
  ENEMY_TOUGH_HP_BONUS := 3
  ENEMY_LEVEL_HP_SCALAR := 1/2
  TOUGH_ENEMY_CHANCE_BASE := 1/10
  TOUGH_ENEMY_CHANCE_LEVEL_SCALAR := 2/100
  PROJECTILE_SPEED := 4/100
  SCORE_PER_CORRECT_ANSWER := 10
  SCORE_PER_KILL := 50
  SCORE_PER_TOUGH_KILL := 250
  SCORE_TO_LEVEL_UP := 500

/-- A stream of `Math.random()` results: rationals in `[0,1)`. -/
structure RandStream where
  val : Nat → ℚ
  lb : ∀ i, 0 ≤ val i
  ub : ∀ i, val i < 1

/-- `Math.floor(Math.random() * n)` for the `i`-th random draw. -/
def randFloor (rs : RandStream) (i n : Nat) : Nat :=
  Nat.floor (rs.val i * n)

/-- The arithmetic expression shown for a problem.  The text-formatting
convenience layer is out of scope (spec §1), so the displayed string
`"a + b"`, `"a - b"`, `"axb - c"` is modelled structurally. -/
inductive ProblemText
  | add (x y : Nat)
  | sub (x y : Nat)
  | mulSub (x y z : Nat)
deriving DecidableEq

/-- A generated problem: displayed expression `t` and answer `a`
(the object `{ t, a }` built by `generateProblem`). -/
structure Problem where
  t : ProblemText
  a : Int
deriving DecidableEq

/-- An enemy (the object pushed by `spawnEnemy`).  `id` models JavaScript
reference identity (see module docstring). -/
structure Enemy where
  id : Nat
  x : ℚ
  y : ℚ
  z : ℚ
  baseSize : ℚ
  speed : ℚ
  hp : Int
  isTough : Bool
  angle : ℚ
  velocity : ℚ
  spring : ℚ
  damp : ℚ
deriving DecidableEq

/-- A projectile (the object pushed by `fireProjectile`).  For an enemy shot
`targetId` is the id of the referenced enemy; a boss shot targets a fixed
screen point which only the (out-of-scope) draw routine reads. -/
structure Projectile where
  startX : ℚ
  startY : ℚ
  targetId : Nat
  progress : ℚ
  speed : ℚ
  isBossShot : Bool
deriving DecidableEq

/-- The boss object (`game.state.bossObject`); its DOM element and the
start/end scales feed only the (out-of-scope) visuals. -/
structure Boss where
  hp : Int
  startTime : ℚ
  duration : ℚ
  startScale : ℚ
  endScale : ℚ
deriving DecidableEq

/-- The session state (`game.state` as initialised by `startGame`), plus the
`nextId` counter that models allocation of fresh enemy object identities. -/
structure GameState where
  phase : Phase
  paused : Bool
  gameOver : Bool
  score : Nat
  level : Nat
  currentAnswer : Option Int
  enemies : List Enemy
  projectiles : List Projectile
  lastSpawnTime : ℚ
  lastTime : ℚ
  bossActive : Bool
  bossObject : Option Boss
  nextId : Nat
deriving DecidableEq

/-- The fixed collaborators of one game instance: tuning table, random
stream, canvas dimensions, and the fuel bound used to model the
`generateProblem` retry recursion. -/
structure Env where
  cfg : Config
  rs : RandStream
  cw : ℚ
  ch : ℚ
  fuel : Nat

/-- `generateProblem` (enemies.js): tiered random arithmetic problem.
The `!p || !p.t` guard of the source is dead code (every branch that
reaches it assigns a template string containing a literal operator, which
is truthy) and is therefore not modelled.  The level ≥ 6 tier retries by
recursion; `fuel` bounds the modelled recursion depth, `none` meaning the
source would still be recursing after `fuel` attempts. -/
def generateProblem (rs : RandStream) (fuel : Nat) (level : Nat) (i : Nat) :
    Option (Problem × Nat) :=
  match fuel with
  | 0 => none
  | fuel + 1 =>
    if level < 3 then
      let r := randFloor rs i 5 + 2
      let a := randFloor rs (i+1) (r - 1) + 1
      some ({ t := ProblemText.add a (r - a), a := (r : Int) }, i + 2)
    else if level < 6 then
      let r := randFloor rs i 9 + 1
      let a := r + randFloor rs (i+1) (9 - r) + 1
      some ({ t := ProblemText.sub a (a - r), a := (r : Int) }, i + 2)
    else
      let a := randFloor rs i 4 + 2
      let b := randFloor rs (i+1) 4 + 1
      let c := randFloor rs (i+2) 5 + 1
      let r : Int := (a * b : Nat) - (c : Nat)
      if 0 < r ∧ r < 10 then
        some ({ t := ProblemText.mulSub a b c, a := r }, i + 3)
      else
        generateProblem rs fuel level (i + 3)

/-- The stateful tail of `generateProblem`: writes the problem text to the
(out-of-scope) display and stores the answer in `state.currentAnswer`. -/
def generateProblemS (env : Env) (s : GameState) (i : Nat) :
    Option (GameState × Nat) :=
  match generateProblem env.rs env.fuel s.level i with
  | none => none
  | some pr => some ({ s with currentAnswer := some pr.1.a }, pr.2)

/-- `triggerGameOver` (engine.js): latched Playing → GameOver transition.
DOM writes (final score text, end screen) are out of scope; the
`playThemeSound('gameOver')` cue is the emitted event. -/
def triggerGameOver (s : GameState) : GameState × List Ev :=
  if s.gameOver then (s, [])
  else ({ s with phase := Phase.gameOver, gameOver := true }, [Ev.gameOver])

/-- `triggerGameWin` (engine.js): latched Playing → GameOver transition with
the victory cue; shares the `gameOver` latch with `triggerGameOver`. -/
def triggerGameWin (s : GameState) : GameState × List Ev :=
  if s.gameOver then (s, [])
  else ({ s with phase := Phase.gameOver, gameOver := true }, [Ev.victory])

/-- `updateUI` (engine.js): recomputes the level from the score and emits
the `levelUp` cue exactly when the level increased.  `Math.floor(score /
SCORE_TO_LEVEL_UP)` is natural division. -/
def updateUI (cfg : Config) (s : GameState) : GameState × List Ev :=
  let newLevel := s.score / cfg.SCORE_TO_LEVEL_UP + 1
  if s.level < newLevel then
    ({ s with level := newLevel }, [Ev.levelUp])
  else (s, [])

/-- `spawnBoss` (enemies.js): latches `bossActive`, clears enemies and
projectiles and creates the boss object.  `performance.now()` at the call
site is the current tick time `now`; theme/DOM styling is out of scope. -/
def spawnBoss (cfg : Config) (s : GameState) (now : ℚ) : GameState :=
  { s with
    bossActive := true
    enemies := []
    projectiles := []
    bossObject := some
      { hp := cfg.BOSS_HP
        startTime := now
        duration := cfg.BOSS_APPROACH_DURATION
        startScale := 5/100
        endScale := 1 } }

/-- `updateBoss` (enemies.js): pure time-ratio approach; reaching progress 1
triggers game over.  The scale/opacity writes are out of scope. -/
def updateBoss (s : GameState) (currentTime : ℚ) : GameState × List Ev :=
  match s.bossObject with
  | none => (s, [])
  | some boss =>
    let progress := min ((currentTime - boss.startTime) / boss.duration) 1
    if 1 ≤ progress then triggerGameOver s else (s, [])

/-- `spawnEnemy` (enemies.js).  Consumes three random draws (toughness roll,
x, y); `performance.now()` at the call site is the tick time `now`. -/
def spawnEnemy (env : Env) (s : GameState) (now : ℚ) (i : Nat) :
    GameState × Nat :=
  if env.cfg.MAX_ENEMIES ≤ s.enemies.length then (s, i)
  else
    let isTough : Bool :=
      env.rs.val i <
        env.cfg.TOUGH_ENEMY_CHANCE_BASE +
          (s.level : ℚ) * env.cfg.TOUGH_ENEMY_CHANCE_LEVEL_SCALAR
    let speedMod := 1 + ((s.level : ℚ) - 1) * (env.cfg.ENEMY_LEVEL_SPEED_SCALAR - 1)
    let speed :=
      (if isTough then env.cfg.ENEMY_BASE_SPEED * env.cfg.ENEMY_TOUGH_SPEED_MODIFIER
       else env.cfg.ENEMY_BASE_SPEED) * speedMod
    let e : Enemy :=
      { id := s.nextId
        x := env.cw * (2/10 + env.rs.val (i+1) * (6/10))
        y := env.ch * (2/10 + env.rs.val (i+2) * (5/10))
        z := 1
        baseSize := if isTough then 100 else 70
        speed := speed
        hp := env.cfg.ENEMY_BASE_HP +
          (if isTough then env.cfg.ENEMY_TOUGH_HP_BONUS else 0) +
          Int.floor (((s.level : ℚ) - 1) * env.cfg.ENEMY_LEVEL_HP_SCALAR)
        isTough := isTough
        angle := 0
        velocity := 0
        spring := 3/100
        damp := 92/100 }
    ({ s with enemies := s.enemies ++ [e], nextId := s.nextId + 1,
              lastSpawnTime := now },
     i + 3)

/-- One enemy's per-tick kinematics (the loop body of `updateEnemies`):
depth advance and damped spring wobble. -/
def stepEnemy (dt : ℚ) (e : Enemy) : Enemy :=
  let v := (e.velocity - e.angle * e.spring) * e.damp
  { e with z := e.z - e.speed * dt, velocity := v, angle := e.angle + v }

/-- The backward `for` loop of `updateEnemies`: the source iterates from the
last index down to 0, and returns from the whole function as soon as an
updated enemy has `z ≤ 0`.  Consequently the enemies before (at lower index
than) the detection point are left un-updated.  Returns the (partially)
updated list and whether game over was detected. -/
def updateEnemyLoop (dt : ℚ) : List Enemy → List Enemy × Bool
  | [] => ([], false)
  | e :: rest =>
    let r := updateEnemyLoop dt rest
    if r.2 then (e :: r.1, true)
    else
      let e' := stepEnemy dt e
      if e'.z ≤ 0 then (e' :: r.1, true) else (e' :: r.1, false)

/-- `updateEnemies` (enemies.js): spawn attempt when the spawn interval has
elapsed, then the backward update loop; a depth-zero enemy triggers game
over and aborts the loop. -/
def updateEnemies (env : Env) (s : GameState) (now dt : ℚ) (i : Nat) :
    GameState × List Ev × Nat :=
  let interval := env.cfg.ENEMY_SPAWN_INTERVAL_BASE *
    env.cfg.ENEMY_SPAWN_LEVEL_SCALAR ^ (s.level - 1)
  let sp :=
    if interval < now - s.lastSpawnTime then spawnEnemy env s now i else (s, i)
  let lo := updateEnemyLoop dt sp.1.enemies
  let s2 := { sp.1 with enemies := lo.1 }
  if lo.2 then
    let g := triggerGameOver s2
    (g.1, g.2, sp.2)
  else (s2, [], sp.2)

/-- The `reduce((a, b) => a.z < b.z ? a : b)` nearest-enemy selection of
`fireProjectile`; on a tie the later element wins. -/
def nearestEnemy : List Enemy → Option Enemy
  | [] => none
  | e :: rest => some (rest.foldl (fun a b => if a.z < b.z then a else b) e)

/-- `fireProjectile` (enemies.js).  With the boss active it always fires a
boss shot; otherwise it requires a live enemy unless this is the initial
call, and targets the nearest (smallest `z`) enemy.  Firing regenerates the
problem — except on the early return when there is no enemy and the call is
not initial, which skips `generateProblem` in the source. -/
def fireProjectile (env : Env) (s : GameState) (isInitialCall : Bool) (i : Nat) :
    Option (GameState × Nat) :=
  if s.bossActive then
    let p : Projectile :=
      { startX := env.cw / 2, startY := env.ch, targetId := 0, progress := 0,
        speed := env.cfg.PROJECTILE_SPEED, isBossShot := true }
    generateProblemS env { s with projectiles := s.projectiles ++ [p] } i
  else if s.enemies = [] ∧ isInitialCall = false then some (s, i)
  else
    match nearestEnemy s.enemies with
    | some e =>
      let p : Projectile :=
        { startX := env.cw / 2, startY := env.ch, targetId := e.id, progress := 0,
          speed := env.cfg.PROJECTILE_SPEED, isBossShot := false }
      generateProblemS env { s with projectiles := s.projectiles ++ [p] } i
    | none => generateProblemS env s i

/-- The mutated target enemy of a projectile hit (`target.hp--` plus the
random angular kick `target.velocity += (Math.random() - 0.5) * 0.3`,
consuming one draw). -/
def hitTarget (env : Env) (i : Nat) (e : Enemy) : Enemy :=
  { e with hp := e.hp - 1,
           velocity := e.velocity + (env.rs.val i - 1/2) * (3/10) }

/-- Resolution of one arrived projectile (the `p.progress >= 1` body of
`updateProjectiles`).  A boss shot decrements boss hp and may trigger the
win; an enemy shot is a silent no-op when the target is no longer in the
live collection, otherwise it decrements the target's hp, applies the
random angular kick (one draw), cues `enemyHit`, and on death removes the
first list occurrence of the target and awards score. -/
def resolveArrival (env : Env) (p : Projectile) (s : GameState) (i : Nat) :
    GameState × List Ev × Nat :=
  if p.isBossShot then
    match s.bossObject with
    | none => (s, [], i)
    | some boss =>
      let boss' := { boss with hp := boss.hp - 1 }
      let s' := { s with bossObject := some boss' }
      if boss'.hp ≤ 0 then
        let g := triggerGameWin s'
        (g.1, g.2, i)
      else (s', [], i)
  else
    match s.enemies.find? (fun e => e.id = p.targetId) with
    | none => (s, [], i)
    | some target =>
      let target' := hitTarget env i target
      let enemies1 := s.enemies.map
        (fun e => if e.id = p.targetId then target' else e)
      if target'.hp ≤ 0 then
        let enemies2 := enemies1.eraseP (fun e => e.id = p.targetId)
        let gain := if target.isTough then env.cfg.SCORE_PER_TOUGH_KILL
          else env.cfg.SCORE_PER_KILL
        ({ s with enemies := enemies2, score := s.score + gain },
         [Ev.enemyHit], i + 1)
      else
        ({ s with enemies := enemies1 }, [Ev.enemyHit], i + 1)

/-- The backward `for` loop of `updateProjectiles`: the source iterates from
the last index down to 0, advances each projectile's progress, resolves and
splices out arrived ones.  The recursion processes the tail (higher
indices) first, matching the source's order of side effects. -/
def projLoop (env : Env) : List Projectile → GameState → Nat →
    List Projectile × GameState × List Ev × Nat
  | [], s, i => ([], s, [], i)
  | p :: rest, s, i =>
    let r := projLoop env rest s i
    let p' := { p with progress := p.progress + p.speed }
    if 1 ≤ p'.progress then
      let a := resolveArrival env p' r.2.1 r.2.2.2
      (r.1, a.1, r.2.2.1 ++ a.2.1, a.2.2)
    else (p' :: r.1, r.2.1, r.2.2.1, r.2.2.2)

/-- `updateProjectiles` (enemies.js). -/
def updateProjectiles (env : Env) (s : GameState) (i : Nat) :
    GameState × List Ev × Nat :=
  let r := projLoop env s.projectiles s i
  ({ r.2.1 with projectiles := r.1 }, r.2.2.1, r.2.2.2)

/-- The boss-spawn check opening `updatePlaying` (engine.js): spawn the
boss and cue `bossSpawn` when the score reached the trigger and no boss is
active yet. -/
def bossCheck (env : Env) (s : GameState) (time : ℚ) : GameState × List Ev :=
  if s.bossActive = false ∧ env.cfg.BOSS_TRIGGER_SCORE ≤ s.score then
    (spawnBoss env.cfg s time, [Ev.bossSpawn])
  else (s, ([] : List Ev))

/-- The `if (this.state.bossActive) updateBoss else updateEnemies` dispatch
of `updatePlaying`. -/
def entityUpdate (env : Env) (s : GameState) (time dt : ℚ) (i : Nat) :
    GameState × List Ev × Nat :=
  if s.bossActive then
    ((updateBoss s time).1, (updateBoss s time).2, i)
  else updateEnemies env s time dt i

/-- `updatePlaying` (engine.js): boss-spawn check, then boss or enemy
update, then — unconditionally — projectile update and UI recompute. -/
def updatePlaying (env : Env) (s : GameState) (time dt : ℚ) (i : Nat) :
    GameState × List Ev × Nat :=
  let a := bossCheck env s time
  let b := entityUpdate env a.1 time dt i
  let c := updateProjectiles env b.1 b.2.2
  let d := updateUI env.cfg c.1
  (d.1, a.2 ++ b.2.1 ++ c.2.1 ++ d.2, c.2.2)

/-- `handleCorrectAnswer` (engine.js): score increment, fire, `correct`
cue.  Note the level is not recomputed here. -/
def handleCorrectAnswer (env : Env) (s : GameState) (i : Nat) :
    Option (GameState × List Ev × Nat) :=
  let s1 := { s with score := s.score + env.cfg.SCORE_PER_CORRECT_ANSWER }
  match fireProjectile env s1 false i with
  | none => none
  | some r => some (r.1, [Ev.correct], r.2)

/-- `handleIncorrectAnswer` (engine.js plus the input.js wrapper): only the
screen shake / flash visuals (out of scope) and the `incorrect` cue; the
game state is untouched by the source. -/
def handleIncorrectAnswer (s : GameState) : GameState × List Ev :=
  (s, [Ev.incorrect])

/-- `togglePause` (engine.js); `now` is `performance.now()` at the call. -/
def togglePause (s : GameState) (now : ℚ) : GameState :=
  if s.phase ≠ Phase.playing ∨ s.gameOver then s
  else
    let s1 := { s with paused := !s.paused }
    if s1.paused = false then { s1 with lastTime := now } else s1

/-- Truthiness of `game.state.currentAnswer` in the `handleAnswer` guard of
input.js (`null` and `0` are falsy). -/
def answerTruthy : Option Int → Bool
  | none => false
  | some a => a != 0

/-- The state initialised by `startGame` (engine.js); `t0` is
`performance.now()` at start. -/
def initialState (t0 : ℚ) : GameState where
  phase := Phase.playing
  paused := false
  gameOver := false
  score := 0
  level := 1
  currentAnswer := none
  enemies := []
  projectiles := []
  lastSpawnTime := t0
  lastTime := t0
  bossActive := false
  bossObject := none
  nextId := 0

/-- `startGame` (engine.js): fresh state, UI recompute, then the seed
`fireProjectile(this, true)` that generates the first problem. -/
def startGame (env : Env) (t0 : ℚ) (i0 : Nat) :
    Option (GameState × List Ev × Nat) :=
  let u := updateUI env.cfg (initialState t0)
  match fireProjectile env u.1 true i0 with
  | none => none
  | some r => some (r.1, u.2, r.2)

/-- External stimuli of one game instance: an animation frame (with its
timestamp), a keypad/keyboard answer, and a pause toggle.  The 200 ms input
debounce of input.js only restricts which stimulus sequences can occur and
is left to the choice of the sequence. -/
inductive GameOp
  | frame (time : ℚ)
  | answer (ans : Int)
  | pauseToggle (now : ℚ)

/-- One stimulus step: the `gameLoop` frame dispatch (which always stores
`lastTime`, computes `dt` with the `lastTime || time` falsy-guard, and runs
`updatePlaying` only while playing and unpaused) and the `handleAnswer`
dispatch of input.js.  `none` propagates a non-terminating
`generateProblem`. -/
def step (env : Env) : GameState × Nat → GameOp →
    Option (GameState × List Ev × Nat)
  | (s, i), GameOp.frame t =>
    if s.phase = Phase.playing ∧ s.paused = false then
      let dt := t - (if s.lastTime = 0 then t else s.lastTime)
      let u := updatePlaying env s t dt i
      some ({ u.1 with lastTime := t }, u.2.1, u.2.2)
    else some ({ s with lastTime := t }, [], i)
  | (s, i), GameOp.answer ans =>
    if s.phase = Phase.playing ∧ s.paused = false ∧
        answerTruthy s.currentAnswer = true then
      if s.currentAnswer = some ans then handleCorrectAnswer env s i
      else some ((handleIncorrectAnswer s).1, (handleIncorrectAnswer s).2, i)
    else some (s, [], i)
  | (s, i), GameOp.pauseToggle now => some (togglePause s now, [], i)

/-- Runs a sequence of stimuli, accumulating the emitted notifications. -/
def run (env : Env) (s : GameState) (i : Nat) :
    List GameOp → Option (GameState × List Ev × Nat)
  | [] => some (s, [], i)
  | op :: ops =>
    match step env (s, i) op with
    | none => none
    | some r =>
      match run env r.1 r.2.2 ops with
      | none => none
      | some r2 => some (r2.1, r.2.1 ++ r2.2.1, r2.2.2)

/-- A whole game instance: `startGame` followed by a stimulus sequence. -/
def runFromStart (env : Env) (t0 : ℚ) (i0 : Nat) (ops : List GameOp) :
    Option (GameState × List Ev × Nat) :=
  match startGame env t0 i0 with
  | none => none
  | some r =>
    match run env r.1 r.2.2 ops with
    | none => none
    | some r2 => some (r2.1, r.2.1 ++ r2.2.1, r2.2.2)

/-! ### Concrete fixtures used by witnesses and counterexamples -/

/-- The random stream that always returns 0. -/
def zeroStream : RandStream where
  val := fun _ => 0
  lb := fun _ => le_refl 0
  ub := fun _ => by norm_num

/-- A random stream whose first draw is `8/9` (so the tier-2 generator picks
`r = 9`) and whose later draws are 0. -/
def nineStream : RandStream where
  val := fun i => if i = 0 then 8/9 else 0
  lb := fun i => by dsimp only; split <;> norm_num
  ub := fun i => by dsimp only; split <;> norm_num

/-- A random stream on which every tier-3 draw triple is `a = 5`, `b = 4`,
`c = 1`, hence `r = 19` is always rejected and the generator retries
forever. -/
def stuckStream : RandStream where
  val := fun i => if i % 3 = 2 then 0 else 3/4
  lb := fun i => by dsimp only; split <;> norm_num
  ub := fun i => by dsimp only; split <;> norm_num

/-- Default environment for witnesses: default tuning, all-zero randomness,
an 800×600 canvas, fuel 1 (tiers 1 and 2 never retry). -/
def env0 : Env where
  cfg := defaultConfig
  rs := zeroStream
  cw := 800
  ch := 600
  fuel := 1

/-- Environment drawing from `nineStream`. -/
def env9 : Env := { env0 with rs := nineStream }

/-- The fresh session state at time 0. -/
def state0 : GameState := initialState 0

/-- The session state right after `startGame` with `env0` (first problem
`1 + 1`, answer 2). -/
def state0' : GameState := { state0 with currentAnswer := some 2 }

/-- A mid-game scene for the game-over-ordering counterexample: enemy 0 is
about to reach depth 0 this tick, enemy 1 (1 hp) survives, and a projectile
targeting enemy 1 arrives this very tick. -/
def enemyA : Enemy where
  id := 0
  x := 100
  y := 100
  z := 1/100
  baseSize := 70
  speed := 1/100
  hp := 3
  isTough := false
  angle := 0
  velocity := 0
  spring := 3/100
  damp := 92/100

/-- The surviving, 1-hp target enemy of the ordering counterexample. -/
def enemyB : Enemy :=
  { enemyA with id := 1, z := 1/2, speed := 0, hp := 1 }

/-- A projectile aimed at `enemyB` that arrives on its next update. -/
def projAB : Projectile where
  startX := 400
  startY := 600
  targetId := 1
  progress := 97/100
  speed := 4/100
  isBossShot := false

/-- The playing state holding the ordering-counterexample scene. -/
def stateC3 : GameState :=
  { state0 with
    currentAnswer := some 2
    enemies := [enemyA, enemyB]
    projectiles := [projAB]
    nextId := 2 }

/-- The `r` draw of the tier-2 (3 ≤ level < 6) generator branch. -/
def tier2r (rs : RandStream) (i : Nat) : Nat := randFloor rs i 9 + 1

/-- The `a` draw of the tier-2 generator branch:
`a = r + Math.floor(Math.random() * (9 - r)) + 1`. -/
def tier2a (rs : RandStream) (i : Nat) : Nat :=
  tier2r rs i + randFloor rs (i+1) (9 - tier2r rs i) + 1

/-- The candidate answer `r = a·b − c` of one tier-3 (level ≥ 6) draw
triple. -/
def tripleValue (rs : RandStream) (i : Nat) : Int :=
  (((randFloor rs i 4 + 2) * (randFloor rs (i+1) 4 + 1) : Nat) : Int) -
    ((randFloor rs (i+2) 5 + 1 : Nat) : Int)

/-- Observation of a run result: final score and level. -/
def scoreLevelOf : Option (GameState × List Ev × Nat) → Option (Nat × Nat)
  | none => none
  | some r => some (r.1.score, r.1.level)

/-- Observation of a run result: final level and number of `levelUp`
notifications emitted. -/
def levelCountOf : Option (GameState × List Ev × Nat) → Option (Nat × Nat)
  | none => none
  | some r => some (r.1.level, r.2.1.count Ev.levelUp)

/-- The tick of the ordering counterexample: `updatePlaying` on `stateC3`
at time 1 with `dt = 1`. -/
def c3result : GameState × List Ev × Nat := updatePlaying env0 stateC3 1 1 0

/-- A theme-overridden tuning table awarding 500 points per correct answer
(`applyTheme` merges `theme.gameplay` into the config wholesale). -/
def cfg500 : Config := { defaultConfig with SCORE_PER_CORRECT_ANSWER := 500 }

/-- Environment using `cfg500`. -/
def env500 : Env := { env0 with cfg := cfg500 }

/-- A theme-overridden tuning table awarding 1000 points per correct
answer. -/
def cfg1000 : Config := { defaultConfig with SCORE_PER_CORRECT_ANSWER := 1000 }

/-- Environment using `cfg1000`. -/
def env1000 : Env := { env0 with cfg := cfg1000 }

/-- The state after `startGame` and one correct answer under `cfg500`. -/
def stateC2 : GameState := { state0' with score := 500 }

/-- The state after `startGame` and one correct answer under `cfg1000`. -/
def stateMid9 : GameState := { state0' with score := 1000 }

/-- The state after the recompute tick following that answer: the level
jumps from 1 straight to 3. -/
def stateC9 : GameState := { stateMid9 with level := 3, lastTime := 1 }

/-- A playing state with the boss latched active (for exercising the
latch). -/
def stateBoss : GameState := { state0' with bossActive := true }

/-- The state after the enemy update of the counterexample tick: game over
latched, both enemies stepped. -/
def stateC3' : GameState :=
  { stateC3 with
    enemies := [stepEnemy 1 enemyA, stepEnemy 1 enemyB]
    phase := Phase.gameOver
    gameOver := true }

/-- The state after the same tick's projectile update: enemy 1 killed and
scored even though the game already ended this tick. -/
def stateC3'' : GameState :=
  { stateC3' with enemies := [stepEnemy 1 enemyA], score := 50 }

/-- The full result state of the counterexample tick (the arrived
projectile removed). -/
def stateC3f : GameState := { stateC3'' with projectiles := [] }

/-- A 1-hp enemy for the projectile-resolution witness scene. -/
def enemyW : Enemy := { enemyA with id := 7, hp := 1 }

/-- A projectile arriving on its next update, aimed at `enemyW`. -/
def projW : Projectile := { projAB with targetId := 7 }

/-- A projectile arriving on its next update, aimed at a never-spawned
id. -/
def projW2 : Projectile := { projAB with targetId := 99 }

/-- Playing state for the hit-resolution witness. -/
def stateW : GameState :=
  { state0 with
    enemies := [enemyW]
    projectiles := [projW] }

/-- Playing state for the absent-target witness. -/
def stateW2 : GameState :=
  { state0 with
    enemies := [enemyW]
    projectiles := [projW2] }


/-! ### Supporting lemmas -/

lemma randFloor_lt (rs : RandStream) (i : Nat) {n : Nat} (hn : 0 < n) :
    randFloor rs i n < n := by
  unfold randFloor
  have h0 : (0:ℚ) ≤ rs.val i * n := mul_nonneg (rs.lb i) (by positivity)
  refine (Nat.floor_lt h0).mpr ?_
  have hn' : (0:ℚ) < n := by exact_mod_cast hn
  calc rs.val i * n < 1 * n := mul_lt_mul_of_pos_right (rs.ub i) hn'
    _ = n := one_mul _

lemma generateProblem_answer_range (rs : RandStream) :
    ∀ (fuel level i : Nat) (p : Problem) (i' : Nat),
      generateProblem rs fuel level i = some (p, i') → 1 ≤ p.a ∧ p.a ≤ 9 := by
  intro fuel
  induction fuel with
  | zero => intro level i p i' h; simp [generateProblem] at h
  | succ n ih =>
    intro level i p i' h
    simp only [generateProblem] at h
    split at h
    · -- level < 3 : r ∈ [2,6]
      have hr : randFloor rs i 5 < 5 := randFloor_lt rs i (by norm_num)
      simp only [Option.some.injEq, Prod.mk.injEq] at h
      obtain ⟨hp, -⟩ := h
      subst hp
      constructor <;> · simp only []; omega
    · split at h
      · -- 3 ≤ level < 6 : r ∈ [1,9]
        have hr : randFloor rs i 9 < 9 := randFloor_lt rs i (by norm_num)
        simp only [Option.some.injEq, Prod.mk.injEq] at h
        obtain ⟨hp, -⟩ := h
        subst hp
        constructor <;> · simp only []; omega
      · -- level ≥ 6
        split at h
        · rename_i hvalid
          simp only [Option.some.injEq, Prod.mk.injEq] at h
          obtain ⟨hp, -⟩ := h
          subst hp
          refine ⟨hvalid.1, ?_⟩
          simp only []
          omega
        · exact ih level (i + 3) p i' h


@[simp] lemma triggerGameOver_score (s : GameState) :
    (triggerGameOver s).1.score = s.score := by
  unfold triggerGameOver; split <;> rfl

@[simp] lemma triggerGameOver_level (s : GameState) :
    (triggerGameOver s).1.level = s.level := by
  unfold triggerGameOver; split <;> rfl

@[simp] lemma triggerGameOver_bossActive (s : GameState) :
    (triggerGameOver s).1.bossActive = s.bossActive := by
  unfold triggerGameOver; split <;> rfl

@[simp] lemma triggerGameOver_count_bossSpawn (s : GameState) :
    (triggerGameOver s).2.count Ev.bossSpawn = 0 := by
  unfold triggerGameOver; split <;> simp [List.count_eq_zero]

@[simp] lemma triggerGameOver_count_levelUp (s : GameState) :
    (triggerGameOver s).2.count Ev.levelUp = 0 := by
  unfold triggerGameOver; split <;> simp [List.count_eq_zero]

@[simp] lemma triggerGameWin_score (s : GameState) :
    (triggerGameWin s).1.score = s.score := by
  unfold triggerGameWin; split <;> rfl

@[simp] lemma triggerGameWin_level (s : GameState) :
    (triggerGameWin s).1.level = s.level := by
  unfold triggerGameWin; split <;> rfl

@[simp] lemma triggerGameWin_bossActive (s : GameState) :
    (triggerGameWin s).1.bossActive = s.bossActive := by
  unfold triggerGameWin; split <;> rfl

@[simp] lemma triggerGameWin_count_bossSpawn (s : GameState) :
    (triggerGameWin s).2.count Ev.bossSpawn = 0 := by
  unfold triggerGameWin; split <;> simp [List.count_eq_zero]

@[simp] lemma triggerGameWin_count_levelUp (s : GameState) :
    (triggerGameWin s).2.count Ev.levelUp = 0 := by
  unfold triggerGameWin; split <;> simp [List.count_eq_zero]

@[simp] lemma updateUI_score (cfg : Config) (s : GameState) :
    (updateUI cfg s).1.score = s.score := by
  simp only [updateUI]; split <;> rfl

@[simp] lemma updateUI_bossActive (cfg : Config) (s : GameState) :
    (updateUI cfg s).1.bossActive = s.bossActive := by
  simp only [updateUI]; split <;> rfl

@[simp] lemma updateUI_count_bossSpawn (cfg : Config) (s : GameState) :
    (updateUI cfg s).2.count Ev.bossSpawn = 0 := by
  simp only [updateUI]; split <;> simp [List.count_eq_zero]

lemma updateUI_level_le (cfg : Config) (s : GameState) :
    s.level ≤ (updateUI cfg s).1.level := by
  simp only [updateUI]; split <;> rename_i h
  · simp only []; omega
  · exact le_refl _

lemma updateUI_count_levelUp_le (cfg : Config) (s : GameState) :
    (updateUI cfg s).2.count Ev.levelUp + s.level ≤ (updateUI cfg s).1.level := by
  simp only [updateUI]; split <;> rename_i h
  · have hc : List.count Ev.levelUp [Ev.levelUp] = 1 := by decide
    simp only [hc]; omega
  · have hc : List.count Ev.levelUp ([] : List Ev) = 0 := by decide
    simp only [hc]; omega

lemma updateUI_level_eq (cfg : Config) (s : GameState)
    (h : s.level ≤ s.score / cfg.SCORE_TO_LEVEL_UP + 1) :
    (updateUI cfg s).1.level = s.score / cfg.SCORE_TO_LEVEL_UP + 1 := by
  simp only [updateUI]; split <;> rename_i hlt
  · rfl
  · simp only []; omega

lemma updateUI_emit (cfg : Config) (s : GameState)
    (h : s.level < s.score / cfg.SCORE_TO_LEVEL_UP + 1) :
    (updateUI cfg s).2 = [Ev.levelUp] ∧
      (updateUI cfg s).1.level = s.score / cfg.SCORE_TO_LEVEL_UP + 1 := by
  simp only [updateUI]
  rw [if_pos h]
  exact ⟨rfl, rfl⟩

@[simp] lemma spawnBoss_score (cfg : Config) (s : GameState) (now : ℚ) :
    (spawnBoss cfg s now).score = s.score := rfl

@[simp] lemma spawnBoss_level (cfg : Config) (s : GameState) (now : ℚ) :
    (spawnBoss cfg s now).level = s.level := rfl

@[simp] lemma spawnBoss_bossActive (cfg : Config) (s : GameState) (now : ℚ) :
    (spawnBoss cfg s now).bossActive = true := rfl

@[simp] lemma updateBoss_score (s : GameState) (t : ℚ) :
    (updateBoss s t).1.score = s.score := by
  simp only [updateBoss]; split
  · rfl
  · split <;> simp

@[simp] lemma updateBoss_level (s : GameState) (t : ℚ) :
    (updateBoss s t).1.level = s.level := by
  simp only [updateBoss]; split
  · rfl
  · split <;> simp

@[simp] lemma updateBoss_bossActive (s : GameState) (t : ℚ) :
    (updateBoss s t).1.bossActive = s.bossActive := by
  simp only [updateBoss]; split
  · rfl
  · split <;> simp

@[simp] lemma updateBoss_count_bossSpawn (s : GameState) (t : ℚ) :
    (updateBoss s t).2.count Ev.bossSpawn = 0 := by
  simp only [updateBoss]; split
  · simp
  · split <;> simp

@[simp] lemma updateBoss_count_levelUp (s : GameState) (t : ℚ) :
    (updateBoss s t).2.count Ev.levelUp = 0 := by
  simp only [updateBoss]; split
  · simp
  · split <;> simp

@[simp] lemma spawnEnemy_score (env : Env) (s : GameState) (now : ℚ) (i : Nat) :
    (spawnEnemy env s now i).1.score = s.score := by
  simp only [spawnEnemy]; split <;> rfl

@[simp] lemma spawnEnemy_level (env : Env) (s : GameState) (now : ℚ) (i : Nat) :
    (spawnEnemy env s now i).1.level = s.level := by
  simp only [spawnEnemy]; split <;> rfl

@[simp] lemma spawnEnemy_bossActive (env : Env) (s : GameState) (now : ℚ) (i : Nat) :
    (spawnEnemy env s now i).1.bossActive = s.bossActive := by
  simp only [spawnEnemy]; split <;> rfl

@[simp] lemma updateEnemies_score (env : Env) (s : GameState) (now dt : ℚ) (i : Nat) :
    (updateEnemies env s now dt i).1.score = s.score := by
  simp only [updateEnemies]; split <;> split <;> simp

@[simp] lemma updateEnemies_level (env : Env) (s : GameState) (now dt : ℚ) (i : Nat) :
    (updateEnemies env s now dt i).1.level = s.level := by
  simp only [updateEnemies]; split <;> split <;> simp

@[simp] lemma updateEnemies_bossActive (env : Env) (s : GameState) (now dt : ℚ) (i : Nat) :
    (updateEnemies env s now dt i).1.bossActive = s.bossActive := by
  simp only [updateEnemies]; split <;> split <;> simp

@[simp] lemma updateEnemies_count_bossSpawn (env : Env) (s : GameState) (now dt : ℚ) (i : Nat) :
    (updateEnemies env s now dt i).2.1.count Ev.bossSpawn = 0 := by
  simp only [updateEnemies]; split <;> split <;> simp

@[simp] lemma updateEnemies_count_levelUp (env : Env) (s : GameState) (now dt : ℚ) (i : Nat) :
    (updateEnemies env s now dt i).2.1.count Ev.levelUp = 0 := by
  simp only [updateEnemies]; split <;> split <;> simp

lemma resolveArrival_score_le (env : Env) (p : Projectile) (s : GameState) (i : Nat) :
    s.score ≤ (resolveArrival env p s i).1.score := by
  simp only [resolveArrival]
  split
  · split
    · exact le_refl _
    · split
      · simp
      · exact le_refl _
  · split
    · exact le_refl _
    · split
      · dsimp only; omega
      · exact le_refl _

@[simp] lemma resolveArrival_level (env : Env) (p : Projectile) (s : GameState) (i : Nat) :
    (resolveArrival env p s i).1.level = s.level := by
  simp only [resolveArrival]
  split
  · split
    · rfl
    · split <;> simp
  · split
    · rfl
    · split <;> rfl

@[simp] lemma resolveArrival_bossActive (env : Env) (p : Projectile) (s : GameState) (i : Nat) :
    (resolveArrival env p s i).1.bossActive = s.bossActive := by
  simp only [resolveArrival]
  split
  · split
    · rfl
    · split <;> simp
  · split
    · rfl
    · split <;> rfl

@[simp] lemma resolveArrival_count_bossSpawn (env : Env) (p : Projectile) (s : GameState) (i : Nat) :
    (resolveArrival env p s i).2.1.count Ev.bossSpawn = 0 := by
  simp only [resolveArrival]
  split
  · split
    · simp
    · split <;> simp [List.count_eq_zero]
  · split
    · simp
    · split <;> simp [List.count_eq_zero]

@[simp] lemma resolveArrival_count_levelUp (env : Env) (p : Projectile) (s : GameState) (i : Nat) :
    (resolveArrival env p s i).2.1.count Ev.levelUp = 0 := by
  simp only [resolveArrival]
  split
  · split
    · simp
    · split <;> simp [List.count_eq_zero]
  · split
    · simp
    · split <;> simp [List.count_eq_zero]

lemma projLoop_spec (env : Env) :
    ∀ (ps : List Projectile) (s : GameState) (i : Nat),
      s.score ≤ (projLoop env ps s i).2.1.score ∧
      (projLoop env ps s i).2.1.level = s.level ∧
      (projLoop env ps s i).2.1.bossActive = s.bossActive ∧
      (projLoop env ps s i).2.2.1.count Ev.bossSpawn = 0 ∧
      (projLoop env ps s i).2.2.1.count Ev.levelUp = 0 := by
  intro ps
  induction ps with
  | nil => intro s i; simp [projLoop]
  | cons p rest ih =>
    intro s i
    obtain ⟨ih1, ih2, ih3, ih4, ih5⟩ := ih s i
    simp only [projLoop]
    split
    · refine ⟨le_trans ih1 (le_trans (resolveArrival_score_le _ _ _ _) (le_refl _)), ?_, ?_, ?_, ?_⟩
      · rw [resolveArrival_level, ih2]
      · rw [resolveArrival_bossActive, ih3]
      · simp [List.count_append, ih4]
      · simp [List.count_append, ih5]
    · exact ⟨ih1, ih2, ih3, ih4, ih5⟩

lemma updateProjectiles_score_le (env : Env) (s : GameState) (i : Nat) :
    s.score ≤ (updateProjectiles env s i).1.score := by
  have h := (projLoop_spec env s.projectiles s i).1
  simpa [updateProjectiles] using h

@[simp] lemma updateProjectiles_level (env : Env) (s : GameState) (i : Nat) :
    (updateProjectiles env s i).1.level = s.level := by
  have h := (projLoop_spec env s.projectiles s i).2.1
  simpa [updateProjectiles] using h

@[simp] lemma updateProjectiles_bossActive (env : Env) (s : GameState) (i : Nat) :
    (updateProjectiles env s i).1.bossActive = s.bossActive := by
  have h := (projLoop_spec env s.projectiles s i).2.2.1
  simpa [updateProjectiles] using h

@[simp] lemma updateProjectiles_count_bossSpawn (env : Env) (s : GameState) (i : Nat) :
    (updateProjectiles env s i).2.1.count Ev.bossSpawn = 0 := by
  have h := (projLoop_spec env s.projectiles s i).2.2.2.1
  simpa [updateProjectiles] using h

@[simp] lemma updateProjectiles_count_levelUp (env : Env) (s : GameState) (i : Nat) :
    (updateProjectiles env s i).2.1.count Ev.levelUp = 0 := by
  have h := (projLoop_spec env s.projectiles s i).2.2.2.2
  simpa [updateProjectiles] using h

lemma generateProblemS_eq (env : Env) (s : GameState) (i : Nat)
    (out : GameState × Nat) (h : generateProblemS env s i = some out) :
    ∃ a : Int, out.1 = { s with currentAnswer := some a } ∧ 1 ≤ a ∧ a ≤ 9 := by
  unfold generateProblemS at h
  split at h
  · exact absurd h (by simp)
  · rename_i pr heq
    obtain ⟨h1, h2⟩ :=
      generateProblem_answer_range env.rs env.fuel s.level i pr.1 pr.2 heq
    refine ⟨pr.1.a, ?_, h1, h2⟩
    simp only [Option.some.injEq] at h
    rw [← h]

lemma fireProjectile_proj (env : Env) (s : GameState) (init : Bool) (i : Nat)
    (out : GameState × Nat) (h : fireProjectile env s init i = some out) :
    out.1.score = s.score ∧ out.1.level = s.level ∧
    out.1.bossActive = s.bossActive ∧ out.1.phase = s.phase ∧
    out.1.paused = s.paused ∧ out.1.gameOver = s.gameOver := by
  unfold fireProjectile at h
  split at h
  · obtain ⟨a, ha, -, -⟩ := generateProblemS_eq _ _ _ _ h
    rw [ha]
    exact ⟨rfl, rfl, rfl, rfl, rfl, rfl⟩
  · split at h
    · simp only [Option.some.injEq] at h
      rw [← h]
      exact ⟨rfl, rfl, rfl, rfl, rfl, rfl⟩
    · split at h
      · obtain ⟨a, ha, -, -⟩ := generateProblemS_eq _ _ _ _ h
        rw [ha]
        exact ⟨rfl, rfl, rfl, rfl, rfl, rfl⟩
      · obtain ⟨a, ha, -, -⟩ := generateProblemS_eq _ _ _ _ h
        rw [ha]
        exact ⟨rfl, rfl, rfl, rfl, rfl, rfl⟩

lemma handleCorrectAnswer_proj (env : Env) (s : GameState) (i : Nat)
    (out : GameState × List Ev × Nat) (h : handleCorrectAnswer env s i = some out) :
    out.1.score = s.score + env.cfg.SCORE_PER_CORRECT_ANSWER ∧
    out.1.level = s.level ∧ out.1.bossActive = s.bossActive ∧
    out.2.1 = [Ev.correct] := by
  simp only [handleCorrectAnswer] at h
  split at h
  · exact absurd h (by simp)
  · rename_i r heq
    obtain ⟨h1, h2, h3, -, -, -⟩ := fireProjectile_proj _ _ _ _ _ heq
    simp only [Option.some.injEq] at h
    rw [← h]
    exact ⟨h1, h2, h3, rfl⟩

@[simp] lemma togglePause_score (s : GameState) (now : ℚ) :
    (togglePause s now).score = s.score := by
  simp only [togglePause]
  split
  · rfl
  · split <;> rfl

@[simp] lemma togglePause_level (s : GameState) (now : ℚ) :
    (togglePause s now).level = s.level := by
  simp only [togglePause]
  split
  · rfl
  · split <;> rfl

@[simp] lemma togglePause_bossActive (s : GameState) (now : ℚ) :
    (togglePause s now).bossActive = s.bossActive := by
  simp only [togglePause]
  split
  · rfl
  · split <;> rfl

lemma bossCheck_cases (env : Env) (s : GameState) (t : ℚ) :
    (bossCheck env s t = (s, []) ∧
      ((bossCheck env s t).1.bossActive = s.bossActive)) ∨
    (s.bossActive = false ∧
      bossCheck env s t = (spawnBoss env.cfg s t, [Ev.bossSpawn]) ∧
      (bossCheck env s t).1.bossActive = true) := by
  unfold bossCheck
  split
  · rename_i h
    exact Or.inr ⟨h.1, rfl, rfl⟩
  · exact Or.inl ⟨rfl, rfl⟩

@[simp] lemma bossCheck_score (env : Env) (s : GameState) (t : ℚ) :
    (bossCheck env s t).1.score = s.score := by
  unfold bossCheck; split <;> rfl

@[simp] lemma bossCheck_level (env : Env) (s : GameState) (t : ℚ) :
    (bossCheck env s t).1.level = s.level := by
  unfold bossCheck; split <;> rfl

@[simp] lemma bossCheck_count_levelUp (env : Env) (s : GameState) (t : ℚ) :
    (bossCheck env s t).2.count Ev.levelUp = 0 := by
  unfold bossCheck; split <;> simp [List.count_eq_zero]

@[simp] lemma entityUpdate_score (env : Env) (s : GameState) (t dt : ℚ) (i : Nat) :
    (entityUpdate env s t dt i).1.score = s.score := by
  unfold entityUpdate; split <;> simp

@[simp] lemma entityUpdate_level (env : Env) (s : GameState) (t dt : ℚ) (i : Nat) :
    (entityUpdate env s t dt i).1.level = s.level := by
  unfold entityUpdate; split <;> simp

@[simp] lemma entityUpdate_bossActive (env : Env) (s : GameState) (t dt : ℚ) (i : Nat) :
    (entityUpdate env s t dt i).1.bossActive = s.bossActive := by
  unfold entityUpdate; split <;> simp

@[simp] lemma entityUpdate_count_bossSpawn (env : Env) (s : GameState) (t dt : ℚ) (i : Nat) :
    (entityUpdate env s t dt i).2.1.count Ev.bossSpawn = 0 := by
  unfold entityUpdate; split <;> simp

@[simp] lemma entityUpdate_count_levelUp (env : Env) (s : GameState) (t dt : ℚ) (i : Nat) :
    (entityUpdate env s t dt i).2.1.count Ev.levelUp = 0 := by
  unfold entityUpdate; split <;> simp

lemma updatePlaying_score_le (env : Env) (s : GameState) (t dt : ℚ) (i : Nat) :
    s.score ≤ (updatePlaying env s t dt i).1.score := by
  simp only [updatePlaying, updateUI_score]
  have h := updateProjectiles_score_le env
    (entityUpdate env (bossCheck env s t).1 t dt i).1
    (entityUpdate env (bossCheck env s t).1 t dt i).2.2
  simpa using h

lemma updatePlaying_level_eq (env : Env) (s : GameState) (t dt : ℚ) (i : Nat)
    (hinv : s.level ≤ s.score / env.cfg.SCORE_TO_LEVEL_UP + 1) :
    (updatePlaying env s t dt i).1.level =
      (updatePlaying env s t dt i).1.score / env.cfg.SCORE_TO_LEVEL_UP + 1 := by
  simp only [updatePlaying, updateUI_score]
  have hl : (updateProjectiles env (entityUpdate env (bossCheck env s t).1 t dt i).1
      (entityUpdate env (bossCheck env s t).1 t dt i).2.2).1.level = s.level := by
    simp
  have hs : s.score ≤ (updateProjectiles env
      (entityUpdate env (bossCheck env s t).1 t dt i).1
      (entityUpdate env (bossCheck env s t).1 t dt i).2.2).1.score := by
    have h := updateProjectiles_score_le env
      (entityUpdate env (bossCheck env s t).1 t dt i).1
      (entityUpdate env (bossCheck env s t).1 t dt i).2.2
    simpa using h
  apply updateUI_level_eq
  rw [hl]
  refine le_trans hinv ?_
  have : s.score / env.cfg.SCORE_TO_LEVEL_UP ≤
      (updateProjectiles env (entityUpdate env (bossCheck env s t).1 t dt i).1
        (entityUpdate env (bossCheck env s t).1 t dt i).2.2).1.score /
        env.cfg.SCORE_TO_LEVEL_UP :=
    Nat.div_le_div_right hs
  omega

lemma updatePlaying_levelUp_le (env : Env) (s : GameState) (t dt : ℚ) (i : Nat) :
    (updatePlaying env s t dt i).2.1.count Ev.levelUp + s.level ≤
      (updatePlaying env s t dt i).1.level := by
  simp only [updatePlaying, List.count_append, bossCheck_count_levelUp,
    entityUpdate_count_levelUp, updateProjectiles_count_levelUp]
  have h := updateUI_count_levelUp_le env.cfg
    (updateProjectiles env (entityUpdate env (bossCheck env s t).1 t dt i).1
      (entityUpdate env (bossCheck env s t).1 t dt i).2.2).1
  have hl : (updateProjectiles env (entityUpdate env (bossCheck env s t).1 t dt i).1
      (entityUpdate env (bossCheck env s t).1 t dt i).2.2).1.level = s.level := by
    simp
  rw [hl] at h
  omega

lemma updatePlaying_level_le (env : Env) (s : GameState) (t dt : ℚ) (i : Nat) :
    s.level ≤ (updatePlaying env s t dt i).1.level := by
  have h := updatePlaying_levelUp_le env s t dt i
  omega

lemma updatePlaying_bossSpawn (env : Env) (s : GameState) (t dt : ℚ) (i : Nat) :
    ((updatePlaying env s t dt i).1.bossActive = s.bossActive ∧
      (updatePlaying env s t dt i).2.1.count Ev.bossSpawn = 0) ∨
    (s.bossActive = false ∧ (updatePlaying env s t dt i).1.bossActive = true ∧
      (updatePlaying env s t dt i).2.1.count Ev.bossSpawn = 1) := by
  rcases bossCheck_cases env s t with ⟨heq, hba⟩ | ⟨hfalse, heq, hba⟩
  · left
    constructor
    · simp only [updatePlaying, updateUI_bossActive, updateProjectiles_bossActive,
        entityUpdate_bossActive, hba]
    · simp only [updatePlaying, List.count_append, entityUpdate_count_bossSpawn,
        updateProjectiles_count_bossSpawn, updateUI_count_bossSpawn, heq]
      simp
  · right
    refine ⟨hfalse, ?_, ?_⟩
    · simp only [updatePlaying, updateUI_bossActive, updateProjectiles_bossActive,
        entityUpdate_bossActive, hba]
    · simp only [updatePlaying, List.count_append, entityUpdate_count_bossSpawn,
        updateProjectiles_count_bossSpawn, updateUI_count_bossSpawn, heq]
      simp [List.count_cons]

lemma step_spec (env : Env) (s : GameState) (i : Nat) (op : GameOp)
    (out : GameState × List Ev × Nat) (h : step env (s, i) op = some out) :
    s.level ≤ out.1.level ∧
    out.2.1.count Ev.levelUp + s.level ≤ out.1.level ∧
    s.score ≤ out.1.score ∧
    ((out.1.bossActive = s.bossActive ∧ out.2.1.count Ev.bossSpawn = 0) ∨
      (s.bossActive = false ∧ out.1.bossActive = true ∧
        out.2.1.count Ev.bossSpawn = 1)) ∧
    (s.level ≤ s.score / env.cfg.SCORE_TO_LEVEL_UP + 1 →
      out.1.level ≤ out.1.score / env.cfg.SCORE_TO_LEVEL_UP + 1) := by
  cases op with
  | frame t =>
    simp only [step] at h
    split at h
    · simp only [Option.some.injEq] at h
      subst h
      refine ⟨updatePlaying_level_le env s t _ i,
        updatePlaying_levelUp_le env s t _ i,
        updatePlaying_score_le env s t _ i,
        updatePlaying_bossSpawn env s t _ i, ?_⟩
      intro hinv
      exact le_of_eq (updatePlaying_level_eq env s t
        (t - (if s.lastTime = 0 then t else s.lastTime)) i hinv)
    · simp only [Option.some.injEq] at h
      subst h
      refine ⟨?_, ?_, ?_, Or.inl ⟨?_, ?_⟩, ?_⟩ <;> simp
  | answer ans =>
    simp only [step] at h
    split at h
    · split at h
      · obtain ⟨h1, h2, h3, h4⟩ := handleCorrectAnswer_proj env s i out h
        have hc : List.count Ev.levelUp [Ev.correct] = 0 := by decide
        have hb : List.count Ev.bossSpawn [Ev.correct] = 0 := by decide
        have hdiv : s.score / env.cfg.SCORE_TO_LEVEL_UP ≤
            (s.score + env.cfg.SCORE_PER_CORRECT_ANSWER) /
              env.cfg.SCORE_TO_LEVEL_UP :=
          Nat.div_le_div_right (by omega)
        refine ⟨by omega, ?_, by omega, Or.inl ⟨h3, ?_⟩, ?_⟩
        · rw [h4]; omega
        · rw [h4]; exact hb
        · intro hinv; rw [h2, h1]; omega
      · simp only [Option.some.injEq] at h
        subst h
        have hc : List.count Ev.levelUp [Ev.incorrect] = 0 := by decide
        have hb : List.count Ev.bossSpawn [Ev.incorrect] = 0 := by decide
        refine ⟨?_, ?_, ?_, Or.inl ⟨?_, ?_⟩, ?_⟩ <;>
          simp [handleIncorrectAnswer, hc, hb]
    · simp only [Option.some.injEq] at h
      subst h
      refine ⟨?_, ?_, ?_, Or.inl ⟨?_, ?_⟩, ?_⟩ <;> simp
  | pauseToggle now =>
    simp only [step, Option.some.injEq] at h
    subst h
    refine ⟨?_, ?_, ?_, Or.inl ⟨?_, ?_⟩, ?_⟩ <;>
      simp [togglePause_level, togglePause_score, togglePause_bossActive]

lemma run_spec (env : Env) :
    ∀ (ops : List GameOp) (s : GameState) (i : Nat)
      (out : GameState × List Ev × Nat), run env s i ops = some out →
      s.level ≤ out.1.level ∧
      out.2.1.count Ev.levelUp + s.level ≤ out.1.level ∧
      s.score ≤ out.1.score ∧
      ((out.1.bossActive = s.bossActive ∧ out.2.1.count Ev.bossSpawn = 0) ∨
        (s.bossActive = false ∧ out.1.bossActive = true ∧
          out.2.1.count Ev.bossSpawn = 1)) ∧
      (s.level ≤ s.score / env.cfg.SCORE_TO_LEVEL_UP + 1 →
        out.1.level ≤ out.1.score / env.cfg.SCORE_TO_LEVEL_UP + 1) := by
  intro ops
  induction ops with
  | nil =>
    intro s i out h
    simp only [run, Option.some.injEq] at h
    subst h
    refine ⟨?_, ?_, ?_, Or.inl ⟨?_, ?_⟩, ?_⟩ <;> simp
  | cons op rest ih =>
    intro s i out h
    simp only [run] at h
    split at h
    · exact absurd h (by simp)
    · rename_i r heq
      split at h
      · exact absurd h (by simp)
      · rename_i r2 heq2
        simp only [Option.some.injEq] at h
        subst h
        obtain ⟨a1, a2, a3, a4, a5⟩ := step_spec env s i op r heq
        obtain ⟨b1, b2, b3, b4, b5⟩ := ih r.1 r.2.2 r2 heq2
        refine ⟨le_trans a1 b1, ?_, le_trans a3 b3, ?_, fun hinv => b5 (a5 hinv)⟩
        · simp only [List.count_append]
          omega
        · rcases a4 with ⟨a41, a42⟩ | ⟨a41, a42, a43⟩ <;>
            rcases b4 with ⟨b41, b42⟩ | ⟨b41, b42, b43⟩
          · exact Or.inl ⟨by rw [b41, a41], by simp [List.count_append, a42, b42]⟩
          · exact Or.inr ⟨by rw [← a41, b41], b42,
              by simp [List.count_append, a42, b43]⟩
          · exact Or.inr ⟨a41, by rw [b41, a42], by simp [List.count_append, a43, b42]⟩
          · rw [a42] at b41
            exact absurd b41 (by simp)

lemma updateUI_initial (cfg : Config) (t0 : ℚ) :
    updateUI cfg (initialState t0) = (initialState t0, []) := by
  simp [updateUI, initialState]

lemma startGame_spec (env : Env) (t0 : ℚ) (i0 : Nat)
    (out : GameState × List Ev × Nat) (h : startGame env t0 i0 = some out) :
    out.1.level = 1 ∧ out.1.score = 0 ∧ out.1.bossActive = false ∧
    out.1.phase = Phase.playing ∧ out.1.paused = false ∧ out.2.1 = [] := by
  simp only [startGame, updateUI_initial] at h
  split at h
  · exact absurd h (by simp)
  · rename_i r heq
    obtain ⟨h1, h2, h3, h4, h5, -⟩ := fireProjectile_proj _ _ _ _ _ heq
    simp only [Option.some.injEq] at h
    subst h
    simp only [initialState] at h1 h2 h3 h4 h5
    exact ⟨h2, h1, h3, h4, h5, rfl⟩

lemma run_append (env : Env) :
    ∀ (l1 l2 : List GameOp) (s : GameState) (i : Nat),
      run env s i (l1 ++ l2) =
        match run env s i l1 with
        | none => none
        | some r =>
          match run env r.1 r.2.2 l2 with
          | none => none
          | some r2 => some (r2.1, r.2.1 ++ r2.2.1, r2.2.2) := by
  intro l1
  induction l1 with
  | nil =>
    intro l2 s i
    simp only [List.nil_append, run]
    cases hrun : run env s i l2 with
    | none => rfl
    | some r2 => rfl
  | cons op l1' ih =>
    intro l2 s i
    simp only [List.cons_append, run]
    cases hstep : step env (s, i) op with
    | none => rfl
    | some r =>
      simp only [List.append_eq]
      rw [ih l2 r.1 r.2.2]
      cases h1 : run env r.1 r.2.2 l1' with
      | none => rfl
      | some r2 =>
        cases h2 : run env r2.1 r2.2.2 l2 with
        | none => simp [h2]
        | some r3 => simp [h2, List.append_assoc]

lemma randFloor_zeroStream (i n : Nat) : randFloor zeroStream i n = 0 := by
  simp [randFloor, zeroStream]

lemma generateProblem_zeroStream :
    generateProblem zeroStream 1 1 0 = some ({ t := ProblemText.add 1 1, a := 2 }, 2) := by
  simp only [generateProblem]
  rw [if_pos (by omega)]
  simp [randFloor_zeroStream]

lemma fireProjectile_initial_zero (env : Env) (hrs : env.rs = zeroStream)
    (hf : env.fuel = 1) :
    fireProjectile env (initialState 0) true 0 = some (state0', 2) := by
  simp only [fireProjectile]
  rw [if_neg (show ¬((initialState 0).bossActive = true) by simp [initialState])]
  rw [if_neg (show ¬((initialState 0).enemies = [] ∧ true = false) by simp)]
  rw [show (initialState 0).enemies = ([] : List Enemy) from rfl]
  simp only [nearestEnemy]
  simp only [generateProblemS]
  rw [show (initialState 0).level = 1 from rfl]
  rw [hrs, hf]
  rw [generateProblem_zeroStream]
  simp [state0', state0, initialState]

lemma startGame_zero (env : Env) (hrs : env.rs = zeroStream) (hf : env.fuel = 1) :
    startGame env 0 0 = some (state0', [], 2) := by
  simp only [startGame, updateUI_initial]
  rw [fireProjectile_initial_zero env hrs hf]

lemma step_answer_correct (env : Env) (s : GameState) (i : Nat) (a : Int)
    (hphase : s.phase = Phase.playing) (hpause : s.paused = false)
    (hans : s.currentAnswer = some a) (hne : a ≠ 0) (henem : s.enemies = [])
    (hboss : s.bossActive = false) :
    step env (s, i) (GameOp.answer a) =
      some ({ s with score := s.score + env.cfg.SCORE_PER_CORRECT_ANSWER },
        [Ev.correct], i) := by
  simp only [step]
  rw [if_pos ⟨hphase, hpause, by simp [answerTruthy, hans, hne]⟩]
  rw [if_pos hans]
  simp only [handleCorrectAnswer, fireProjectile]
  rw [if_neg (by simp [hboss])]
  rw [if_pos (by simp [henem])]

lemma runC2 :
    runFromStart env500 0 0 [GameOp.answer 2] = some (stateC2, [Ev.correct], 2) := by
  simp only [runFromStart]
  rw [startGame_zero env500 rfl rfl]
  simp only [run]
  rw [step_answer_correct env500 state0' 2 2 rfl rfl rfl (by norm_num) rfl rfl]
  simp [stateC2, env500, cfg500, defaultConfig, state0', state0, initialState]

lemma bossCheck_stateMid9 : bossCheck env1000 stateMid9 1 = (stateMid9, []) := by
  simp only [bossCheck]
  rw [if_neg (by decide)]

lemma updateEnemies_stateMid9 (dt : ℚ) :
    updateEnemies env1000 stateMid9 1 dt 2 = (stateMid9, [], 2) := by
  simp only [updateEnemies]
  rw [if_neg (show ¬(env1000.cfg.ENEMY_SPAWN_INTERVAL_BASE *
      env1000.cfg.ENEMY_SPAWN_LEVEL_SCALAR ^ (stateMid9.level - 1) <
      1 - stateMid9.lastSpawnTime) by
    norm_num [env1000, env0, cfg1000, defaultConfig, stateMid9, state0', state0,
      initialState])]
  rw [show stateMid9.enemies = ([] : List Enemy) from rfl]
  simp only [updateEnemyLoop]
  rfl

lemma updateUI_stateMid9 :
    updateUI env1000.cfg stateMid9 = ({ stateMid9 with level := 3 }, [Ev.levelUp]) := by
  simp only [updateUI]
  rw [if_pos (by decide)]
  rw [show stateMid9.score / env1000.cfg.SCORE_TO_LEVEL_UP + 1 = 3 from by decide]

lemma step_frame_stateMid9 :
    step env1000 (stateMid9, 2) (GameOp.frame 1) = some (stateC9, [Ev.levelUp], 2) := by
  simp only [step]
  rw [if_pos (show stateMid9.phase = Phase.playing ∧ stateMid9.paused = false from ⟨rfl, rfl⟩)]
  simp only [updatePlaying, bossCheck_stateMid9, updateEnemies_stateMid9]
  simp only [entityUpdate]
  rw [if_neg (show ¬(stateMid9.bossActive = true) by decide)]
  simp only [updateEnemies_stateMid9]
  rw [show updateProjectiles env1000 stateMid9 2 = (stateMid9, [], 2) from by
    simp only [updateProjectiles]
    rw [show stateMid9.projectiles = ([] : List Projectile) from rfl]
    simp only [projLoop]
    rfl]
  simp only [updateUI_stateMid9]
  simp [stateC9]

lemma step_answer_stateMid9 :
    step env1000 (state0', 2) (GameOp.answer 2) = some (stateMid9, [Ev.correct], 2) := by
  rw [step_answer_correct env1000 state0' 2 2 rfl rfl rfl (by norm_num) rfl rfl]
  simp [stateMid9, env1000, env0, cfg1000, defaultConfig, state0', state0, initialState]

lemma runC9 :
    runFromStart env1000 0 0 [GameOp.answer 2, GameOp.frame 1] =
      some (stateC9, [Ev.correct, Ev.levelUp], 2) := by
  simp only [runFromStart]
  rw [startGame_zero env1000 rfl rfl]
  simp only [run, step_answer_stateMid9, step_frame_stateMid9]
  rfl

lemma updateEnemyLoop_survivors (dt : ℚ) :
    ∀ (post : List Enemy), (∀ f ∈ post, ¬ (stepEnemy dt f).z ≤ 0) →
      updateEnemyLoop dt post = (post.map (stepEnemy dt), false) := by
  intro post
  induction post with
  | nil => intro _; rfl
  | cons e rest ih =>
    intro h
    have h1 := ih (fun f hf => h f (List.mem_cons_of_mem e hf))
    have h2 := h e (List.mem_cons_self e rest)
    simp only [updateEnemyLoop, h1]
    simp [h2]

lemma updateEnemyLoop_shortCircuit (dt : ℚ) (pre post : List Enemy) (e : Enemy)
    (hpost : ∀ f ∈ post, ¬ (stepEnemy dt f).z ≤ 0)
    (he : (stepEnemy dt e).z ≤ 0) :
    updateEnemyLoop dt (pre ++ e :: post) =
      (pre ++ stepEnemy dt e :: post.map (stepEnemy dt), true) := by
  induction pre with
  | nil =>
    simp only [List.nil_append, updateEnemyLoop]
    rw [updateEnemyLoop_survivors dt post hpost]
    simp [he]
  | cons a pre ih =>
    simp only [List.cons_append, updateEnemyLoop, List.append_eq]
    rw [ih]
    simp

lemma loop_stateC3 :
    updateEnemyLoop 1 [enemyA, enemyB] =
      ([stepEnemy 1 enemyA, stepEnemy 1 enemyB], true) := by
  have h := updateEnemyLoop_shortCircuit 1 [] [enemyB] enemyA
    (by
      intro f hf
      rw [List.mem_singleton] at hf
      subst hf
      norm_num [stepEnemy, enemyB, enemyA])
    (by norm_num [stepEnemy, enemyA])
  simpa using h

lemma updateEnemies_stateC3 :
    updateEnemies env0 stateC3 1 1 0 = (stateC3', [Ev.gameOver], 0) := by
  simp only [updateEnemies]
  rw [if_neg (show ¬(env0.cfg.ENEMY_SPAWN_INTERVAL_BASE *
      env0.cfg.ENEMY_SPAWN_LEVEL_SCALAR ^ (stateC3.level - 1) <
      1 - stateC3.lastSpawnTime) by
    norm_num [env0, defaultConfig, stateC3, state0, initialState])]
  rw [show stateC3.enemies = [enemyA, enemyB] from rfl]
  rw [loop_stateC3]
  simp only [triggerGameOver]
  rw [if_neg (show ¬(({ stateC3 with
      enemies := [stepEnemy 1 enemyA, stepEnemy 1 enemyB] } : GameState).gameOver = true)
    by decide)]
  simp [stateC3']

lemma find_stateC3 :
    List.find? (fun e => e.id = projAB.targetId)
      [stepEnemy 1 enemyA, stepEnemy 1 enemyB] = some (stepEnemy 1 enemyB) := by
  have hidA : (stepEnemy 1 enemyA).id = 0 := rfl
  have hidB : (stepEnemy 1 enemyB).id = 1 := rfl
  have htid : projAB.targetId = 1 := rfl
  simp [List.find?_cons, hidA, hidB, htid]

lemma resolve_stateC3 :
    resolveArrival env0 { projAB with progress := projAB.progress + projAB.speed }
      stateC3' 0 = (stateC3'', [Ev.enemyHit], 1) := by
  simp only [resolveArrival]
  rw [if_neg (show ¬(({ projAB with
      progress := projAB.progress + projAB.speed } : Projectile).isBossShot = true)
    by decide)]
  rw [show stateC3'.enemies = [stepEnemy 1 enemyA, stepEnemy 1 enemyB] from rfl]
  rw [find_stateC3]
  have h1 : (hitTarget env0 0 (stepEnemy 1 enemyB)).hp ≤ 0 := by decide
  have h2 : (stepEnemy 1 enemyA).id = 0 := rfl
  have h3 : (stepEnemy 1 enemyB).id = 1 := rfl
  have h4 : projAB.targetId = 1 := rfl
  have h5 : (stepEnemy 1 enemyB).isTough = false := rfl
  have h6 : (hitTarget env0 0 (stepEnemy 1 enemyB)).id = 1 := rfl
  have h7 : env0.cfg.SCORE_PER_KILL = 50 := rfl
  simp [h1, h2, h3, h4, h5, h6, h7, List.eraseP_cons, stateC3'', stateC3', stateC3,
    state0, initialState]

lemma updateProjectiles_stateC3 :
    updateProjectiles env0 stateC3' 0 = (stateC3f, [Ev.enemyHit], 1) := by
  simp only [updateProjectiles]
  rw [show stateC3'.projectiles = [projAB] from rfl]
  simp only [projLoop]
  rw [if_pos (show (1:ℚ) ≤ ({ projAB with
      progress := projAB.progress + projAB.speed } : Projectile).progress by
    norm_num [projAB])]
  rw [resolve_stateC3]
  simp [stateC3f]

lemma c3result_eq : c3result = (stateC3f, [Ev.gameOver, Ev.enemyHit], 1) := by
  simp only [c3result, updatePlaying]
  rw [show bossCheck env0 stateC3 1 = (stateC3, []) from by
    simp only [bossCheck]
    rw [if_neg (by decide)]]
  simp only [entityUpdate]
  rw [if_neg (show ¬(stateC3.bossActive = true) by decide)]
  rw [updateEnemies_stateC3]
  rw [updateProjectiles_stateC3]
  rw [show updateUI env0.cfg stateC3f = (stateC3f, []) from by
    simp only [updateUI]
    rw [if_neg (by decide)]]
  rfl

lemma run_single (env : Env) (s : GameState) (i : Nat) (op : GameOp) :
    run env s i [op] = step env (s, i) op := by
  simp only [run]
  cases h : step env (s, i) op with
  | none => rfl
  | some r => simp

lemma runFromStart_append (env : Env) (t0 : ℚ) (i0 : Nat) (l1 l2 : List GameOp) :
    runFromStart env t0 i0 (l1 ++ l2) =
      match runFromStart env t0 i0 l1 with
      | none => none
      | some r =>
        match run env r.1 r.2.2 l2 with
        | none => none
        | some r2 => some (r2.1, r.2.1 ++ r2.2.1, r2.2.2) := by
  simp only [runFromStart]
  cases hs : startGame env t0 i0 with
  | none => rfl
  | some r0 =>
    dsimp only
    rw [run_append]
    cases h1 : run env r0.1 r0.2.2 l1 with
    | none => rfl
    | some r1 =>
      cases h2 : run env r1.1 r1.2.2 l2 with
      | none => simp [h2]
      | some r2 => simp [h2, List.append_assoc]

lemma randFloor_nineStream_zero : randFloor nineStream 0 9 = 8 := by
  simp only [randFloor, nineStream]
  norm_num

lemma randFloor_nineStream_one : randFloor nineStream 1 0 = 0 := by
  simp [randFloor, nineStream]

lemma generateProblem_nineStream :
    generateProblem nineStream 1 3 0 = some ({ t := ProblemText.sub 10 1, a := 9 }, 2) := by
  simp only [generateProblem]
  rw [if_neg (by omega), if_pos (by omega)]
  norm_num [randFloor_nineStream_zero, randFloor_nineStream_one]

lemma randFloor_eval_zero (rs : RandStream) (i : Nat) : randFloor rs i 0 = 0 := by
  simp [randFloor]

lemma generateProblem_tier2 (rs : RandStream) (fuel level i : Nat)
    (h3 : 3 ≤ level) (h6 : level < 6) (hf : 0 < fuel) :
    generateProblem rs fuel level i =
      some ({ t := ProblemText.sub (tier2a rs i) (tier2a rs i - tier2r rs i),
              a := (tier2r rs i : Int) }, i + 2) ∧
    1 ≤ tier2r rs i ∧ tier2r rs i ≤ 9 ∧ tier2r rs i < tier2a rs i ∧
    (tier2r rs i ≤ 8 → tier2a rs i ≤ 9) ∧
    (tier2r rs i = 9 → tier2a rs i = 10) := by
  obtain ⟨n, rfl⟩ : ∃ n, fuel = n + 1 :=
    ⟨fuel - 1, by omega⟩
  have hr9 : randFloor rs i 9 < 9 := randFloor_lt rs i (by norm_num)
  refine ⟨?_, ?_, ?_, ?_, ?_, ?_⟩
  · simp only [generateProblem]
    rw [if_neg (by omega), if_pos (by omega)]
    rfl
  · simp [tier2r]
  · simp only [tier2r]; omega
  · simp only [tier2a]; omega
  · intro h8
    have : randFloor rs (i+1) (9 - tier2r rs i) < 9 - tier2r rs i :=
      randFloor_lt rs (i+1) (by simp only [tier2r] at h8 ⊢; omega)
    simp only [tier2a] at *
    omega
  · intro h9
    simp only [tier2a, h9]
    norm_num [randFloor_eval_zero]

lemma stuckStream_draws (i : Nat) (h : i % 3 = 0) :
    randFloor stuckStream i 4 = 3 ∧ randFloor stuckStream (i+1) 4 = 3 ∧
    randFloor stuckStream (i+2) 5 = 0 := by
  have h1 : (i + 1) % 3 = 1 := by omega
  have h2 : (i + 2) % 3 = 2 := by omega
  have v0 : stuckStream.val i = 3/4 := by simp [stuckStream, h]
  have v1 : stuckStream.val (i+1) = 3/4 := by simp [stuckStream, h1]
  have v2 : stuckStream.val (i+2) = 0 := by simp [stuckStream, h2]
  refine ⟨?_, ?_, ?_⟩ <;> simp only [randFloor, v0, v1, v2] <;> norm_num

lemma generateProblem_stuckStream (level : Nat) (hl : 6 ≤ level) :
    ∀ (fuel i : Nat), i % 3 = 0 →
      generateProblem stuckStream fuel level i = none := by
  intro fuel
  induction fuel with
  | zero => intro i _; rfl
  | succ n ih =>
    intro i h
    obtain ⟨d0, d1, d2⟩ := stuckStream_draws i h
    simp only [generateProblem, d0, d1, d2]
    rw [if_neg (by omega), if_neg (by omega)]
    rw [if_neg (by norm_num)]
    exact ih (i+3) (by omega)

lemma generateProblem_first_valid (rs : RandStream) (level i fuel : Nat)
    (hl : 6 ≤ level) (hf : 0 < fuel)
    (hv : 0 < tripleValue rs i ∧ tripleValue rs i < 10) :
    generateProblem rs fuel level i =
      some ({ t := ProblemText.mulSub (randFloor rs i 4 + 2)
                (randFloor rs (i+1) 4 + 1) (randFloor rs (i+2) 5 + 1),
              a := tripleValue rs i }, i + 3) ∧
    1 ≤ tripleValue rs i ∧ tripleValue rs i ≤ 9 := by
  obtain ⟨n, rfl⟩ : ∃ n, fuel = n + 1 := ⟨fuel - 1, by omega⟩
  obtain ⟨hv1, hv2⟩ := hv
  simp only [tripleValue] at hv1 hv2
  refine ⟨?_, by simp only [tripleValue]; omega, by simp only [tripleValue]; omega⟩
  simp only [generateProblem]
  rw [if_neg (by omega), if_neg (by omega)]
  rw [if_pos ⟨hv1, hv2⟩]
  rfl

lemma mapHit_ids (tid : Nat) (t' : Enemy) (ht : t'.id = tid) :
    ∀ (l : List Enemy),
      (l.map (fun e => if e.id = tid then t' else e)).map Enemy.id =
        l.map Enemy.id := by
  intro l
  induction l with
  | nil => rfl
  | cons a l ih =>
    simp only [List.map_cons]
    by_cases ha : a.id = tid
    · simp [ha, ht, ih]
    · simp [ha, ih]

lemma erasePHit_ids (tid : Nat) :
    ∀ (l : List Enemy),
      (l.eraseP (fun e => e.id = tid)).map Enemy.id =
        (l.map Enemy.id).erase tid := by
  intro l
  induction l with
  | nil => rfl
  | cons a l ih =>
    by_cases ha : a.id = tid
    · simp [List.eraseP_cons, ha, List.erase_cons]
    · simp [List.eraseP_cons, ha, List.erase_cons, ih]

lemma find?_mapHit (tid : Nat) (t' : Enemy) (ht : t'.id = tid) :
    ∀ (l : List Enemy), (∃ e ∈ l, e.id = tid) →
      (l.map (fun e => if e.id = tid then t' else e)).find?
        (fun e => e.id = tid) = some t' := by
  intro l
  induction l with
  | nil => rintro ⟨e, he, -⟩; cases he
  | cons a l ih =>
    rintro ⟨e, he, hid⟩
    by_cases ha : a.id = tid
    · simp [List.find?_cons, ha, ht]
    · rcases List.mem_cons.mp he with rfl | he'
      · exact absurd hid ha
      · simp only [List.map_cons, if_neg ha, List.find?_cons]
        have hd : decide (a.id = tid) = false := by simp [ha]
        rw [hd]
        exact ih ⟨e, he', hid⟩

lemma find?_of_nodup_ids (e : Enemy) (tid : Nat) (hid : e.id = tid) :
    ∀ (l : List Enemy), (l.map Enemy.id).Nodup → e ∈ l →
      l.find? (fun f => f.id = tid) = some e := by
  intro l
  induction l with
  | nil => intro _ he; cases he
  | cons a l ih =>
    intro hnd he
    simp only [List.map_cons, List.nodup_cons] at hnd
    rcases List.mem_cons.mp he with rfl | he'
    · simp [List.find?_cons, hid]
    · by_cases ha : a.id = tid
      · exfalso
        apply hnd.1
        rw [ha, ← hid]
        exact List.mem_map_of_mem Enemy.id he'
      · simp only [List.find?_cons]
        have hd : decide (a.id = tid) = false := by simp [ha]
        rw [hd]
        exact ih hnd.2 he'

lemma updateProjectiles_single (env : Env) (s : GameState) (p : Projectile)
    (i : Nat) (hps : s.projectiles = [p]) (harr : 1 ≤ p.progress + p.speed) :
    updateProjectiles env s i =
      ({ (resolveArrival env { p with progress := p.progress + p.speed } s i).1
          with projectiles := [] },
       (resolveArrival env { p with progress := p.progress + p.speed } s i).2.1,
       (resolveArrival env { p with progress := p.progress + p.speed } s i).2.2) := by
  simp only [updateProjectiles, hps, projLoop]
  rw [if_pos (show (1:ℚ) ≤
    ({ p with progress := p.progress + p.speed } : Projectile).progress from harr)]
  rfl

lemma resolveArrival_noTarget (env : Env) (p : Projectile) (s : GameState)
    (i : Nat) (hbs : p.isBossShot = false)
    (habs : ∀ f ∈ s.enemies, ¬ f.id = p.targetId) :
    resolveArrival env p s i = (s, [], i) := by
  simp only [resolveArrival, hbs]
  rw [if_neg (show ¬(false = true) by simp)]
  rw [List.find?_eq_none.mpr (by intro f hf; simpa using habs f hf)]

lemma resolveArrival_kill (env : Env) (p : Projectile) (s : GameState)
    (i : Nat) (e : Enemy) (hbs : p.isBossShot = false)
    (hfind : s.enemies.find? (fun f => f.id = p.targetId) = some e)
    (hdead : e.hp ≤ 1) :
    resolveArrival env p s i =
      ({ s with
          enemies := (s.enemies.map
            (fun f => if f.id = p.targetId then hitTarget env i e else f)).eraseP
              (fun f => f.id = p.targetId)
          score := s.score + (if e.isTough then env.cfg.SCORE_PER_TOUGH_KILL
            else env.cfg.SCORE_PER_KILL) },
       [Ev.enemyHit], i + 1) := by
  simp only [resolveArrival, hbs, hfind]
  rw [if_neg (show ¬(false = true) by simp)]
  rw [if_pos (show (hitTarget env i e).hp ≤ 0 by
    simp only [hitTarget]; omega)]

lemma resolveArrival_wound (env : Env) (p : Projectile) (s : GameState)
    (i : Nat) (e : Enemy) (hbs : p.isBossShot = false)
    (hfind : s.enemies.find? (fun f => f.id = p.targetId) = some e)
    (halive : 1 < e.hp) :
    resolveArrival env p s i =
      ({ s with
          enemies :=
            s.enemies.map
              (fun f => if f.id = p.targetId then hitTarget env i e else f) },
       [Ev.enemyHit], i + 1) := by
  simp only [resolveArrival, hbs, hfind]
  rw [if_neg (show ¬(false = true) by simp)]
  rw [if_neg (show ¬((hitTarget env i e).hp ≤ 0) by
    simp only [hitTarget]; omega)]

lemma generateProblemS_env0 :
    generateProblemS env0 (initialState 0) 0 = some (state0', 2) := by
  simp only [generateProblemS]
  rw [show (initialState 0).level = 1 from rfl]
  rw [show env0.rs = zeroStream from rfl, show env0.fuel = 1 from rfl]
  rw [generateProblem_zeroStream]
  simp [state0', state0, initialState]


lemma runFromStart_inv (env : Env) (t0 : ℚ) (i0 : Nat) (ops : List GameOp)
    (out : GameState × List Ev × Nat)
    (h : runFromStart env t0 i0 ops = some out) :
    out.1.level ≤ out.1.score / env.cfg.SCORE_TO_LEVEL_UP + 1 ∧
    1 ≤ out.1.level ∧
    out.2.1.count Ev.levelUp + 1 ≤ out.1.level ∧
    out.2.1.count Ev.bossSpawn ≤ 1 := by
  simp only [runFromStart] at h
  split at h
  · exact absurd h (by simp)
  · rename_i r0 heq0
    split at h
    · exact absurd h (by simp)
    · rename_i r1 heq1
      simp only [Option.some.injEq] at h
      subst h
      obtain ⟨g1, g2, g3, g4, g5, g6⟩ := startGame_spec env t0 i0 r0 heq0
      obtain ⟨b1, b2, b3, b4, b5⟩ := run_spec env ops r0.1 r0.2.2 r1 heq1
      have hinv : r1.1.level ≤ r1.1.score / env.cfg.SCORE_TO_LEVEL_UP + 1 := by
        apply b5
        rw [g1, g2]
        simp
      refine ⟨hinv, ?_, ?_, ?_⟩
      · show 1 ≤ r1.1.level
        omega
      · show (r0.2.1 ++ r1.2.1).count Ev.levelUp + 1 ≤ r1.1.level
        rw [g6]
        simp only [List.nil_append]
        omega
      · show (r0.2.1 ++ r1.2.1).count Ev.bossSpawn ≤ 1
        rw [g6]
        simp only [List.nil_append]
        rcases b4 with ⟨-, hc⟩ | ⟨-, -, hc⟩ <;> omega

lemma runC9mid :
    runFromStart env1000 0 0 [GameOp.answer 2] =
      some (stateMid9, [Ev.correct], 2) := by
  simp only [runFromStart]
  rw [startGame_zero env1000 rfl rfl]
  simp only [run, step_answer_stateMid9]
  rfl

lemma runC7nil : runFromStart env0 0 0 [] = some (state0', [], 2) := by
  simp only [runFromStart]
  rw [startGame_zero env0 rfl rfl]
  rfl


/-! ### Claim theorems -/

/-- C1: whenever the problem generator produces a problem, its integer
answer lies in the inclusive range [1,9] (never 0, never multi-digit), and
the stored `currentAnswer` equals that answer — for every level. -/
theorem problem_answer_in_keypad_range (env : Env) (s : GameState) (i : Nat)
    (out : GameState × Nat) (h : generateProblemS env s i = some out) :
    ∃ a : Int, 1 ≤ a ∧ a ≤ 9 ∧ out.1.currentAnswer = some a ∧
      out.1 = { s with currentAnswer := some a } := by
  obtain ⟨a, ha, h1, h2⟩ := generateProblemS_eq env s i out h
  exact ⟨a, h1, h2, by rw [ha], ha⟩

/-- C1 witness: the first problem of a fresh level-1 game has answer 2 and
stores it in `currentAnswer`. -/
theorem problem_answer_in_keypad_range_witness :
    ∃ a : Int, 1 ≤ a ∧ a ≤ 9 ∧ state0'.currentAnswer = some a ∧
      state0' = { initialState 0 with currentAnswer := some a } :=
  problem_answer_in_keypad_range env0 (initialState 0) 0 (state0', 2)
    generateProblemS_env0

/-- C4 counterexample: the tier-2 generator can pick `r = 9`, and then the
second draw is `Math.floor(Math.random() * 0) = 0`, making the minuend
`a = 10` — outside the claimed range `[r+1, 9] = [10, 9]` (which is empty).
The displayed problem is `10 − 1` with answer 9. -/
theorem tier2_minuend_overflow_cex :
    generateProblem nineStream 1 3 0 =
      some ({ t := ProblemText.sub 10 1, a := 9 }, 2) ∧ ¬((10:Nat) ≤ 9) :=
  ⟨generateProblem_nineStream, by omega⟩

/-- C4 (amended): for 3 ≤ level < 6 the generator picks `r ∈ [1,9]` and
`a = r + Math.floor(Math.random()*(9−r)) + 1`; the problem is `a − (a−r)`
with answer `r` and `r < a`; when `r ≤ 8` indeed `a ∈ [r+1,9]`, but when
`r = 9` the draw degenerates and `a = 10`. -/
theorem tier2_problem_shape (rs : RandStream) (fuel level i : Nat)
    (h3 : 3 ≤ level) (h6 : level < 6) (hf : 0 < fuel) :
    generateProblem rs fuel level i =
      some ({ t := ProblemText.sub (tier2a rs i) (tier2a rs i - tier2r rs i),
              a := (tier2r rs i : Int) }, i + 2) ∧
    1 ≤ tier2r rs i ∧ tier2r rs i ≤ 9 ∧ tier2r rs i < tier2a rs i ∧
    (tier2r rs i ≤ 8 → tier2a rs i ≤ 9) ∧
    (tier2r rs i = 9 → tier2a rs i = 10) :=
  generateProblem_tier2 rs fuel level i h3 h6 hf

/-- C4 witness: tier-2 generation at level 4 on the all-zero stream. -/
theorem tier2_problem_shape_witness :
    generateProblem zeroStream 1 4 0 =
      some ({ t := ProblemText.sub (tier2a zeroStream 0)
                (tier2a zeroStream 0 - tier2r zeroStream 0),
              a := (tier2r zeroStream 0 : Int) }, 2) ∧
    1 ≤ tier2r zeroStream 0 ∧ tier2r zeroStream 0 ≤ 9 ∧
    tier2r zeroStream 0 < tier2a zeroStream 0 ∧
    (tier2r zeroStream 0 ≤ 8 → tier2a zeroStream 0 ≤ 9) ∧
    (tier2r zeroStream 0 = 9 → tier2a zeroStream 0 = 10) :=
  tier2_problem_shape zeroStream 1 4 0 (by omega) (by omega) (by omega)

/-- C5 counterexample: on the stream that always draws `a = 5`, `b = 4`,
`c = 1` (so `r = 19` is always rejected) the tier-3 generator is still
retrying after 50 attempts and no fallback to a tier-1 problem ever
happens: there is no explicit retry cap in the code. -/
theorem tier3_no_retry_cap_cex :
    generateProblem stuckStream 50 6 0 = none :=
  generateProblem_stuckStream 6 (by omega) 50 0 rfl

/-- C5 (amended): the tier-3 retry is an uncapped recursion with no
fallback — for every fuel bound the all-invalid stream yields no problem —
but it terminates as soon as a draw triple is valid (`0 < a·b−c < 10`), and
the answer is then in [1,9]. -/
theorem tier3_retry_behaviour (level fuel i : Nat) (hl : 6 ≤ level)
    (h3 : i % 3 = 0) (rs : RandStream) (level2 i2 fuel2 : Nat)
    (hl2 : 6 ≤ level2) (hf2 : 0 < fuel2)
    (hv : 0 < tripleValue rs i2 ∧ tripleValue rs i2 < 10) :
    generateProblem stuckStream fuel level i = none ∧
    (generateProblem rs fuel2 level2 i2 =
      some ({ t := ProblemText.mulSub (randFloor rs i2 4 + 2)
                (randFloor rs (i2+1) 4 + 1) (randFloor rs (i2+2) 5 + 1),
              a := tripleValue rs i2 }, i2 + 3) ∧
     1 ≤ tripleValue rs i2 ∧ tripleValue rs i2 ≤ 9) :=
  ⟨generateProblem_stuckStream level hl fuel i h3,
   generateProblem_first_valid rs level2 i2 fuel2 hl2 hf2 hv⟩

/-- C5 witness: fuel 7 on the stuck stream still yields nothing, while the
all-zero stream (draws `a = 2`, `b = 1`, `c = 1`, so `r = 1`) succeeds
immediately. -/
theorem tier3_retry_behaviour_witness :
    generateProblem stuckStream 7 6 0 = none ∧
    (generateProblem zeroStream 1 6 0 =
      some ({ t := ProblemText.mulSub (randFloor zeroStream 0 4 + 2)
                (randFloor zeroStream 1 4 + 1) (randFloor zeroStream 2 5 + 1),
              a := tripleValue zeroStream 0 }, 3) ∧
     1 ≤ tripleValue zeroStream 0 ∧ tripleValue zeroStream 0 ≤ 9) :=
  tier3_retry_behaviour 6 7 0 (by omega) rfl zeroStream 6 0 1 (by omega)
    (by omega)
    (by constructor <;> · simp only [tripleValue, randFloor_zeroStream]; norm_num)

/-- C6: `triggerGameOver` and `triggerGameWin` are latched on the
`gameOver` flag: the first call from a live state sets the flag and emits
exactly one `gameOver` notification, and a second call of either function
is a complete no-op (same state, no notification) — so two successive
`triggerGameOver` calls produce exactly one notification. -/
theorem trigger_game_over_idempotent (s s1 : GameState) (evs1 : List Ev)
    (h1 : triggerGameOver s = (s1, evs1)) (hgo : s.gameOver = false) :
    s1.gameOver = true ∧ evs1 = [Ev.gameOver] ∧
    triggerGameOver s1 = (s1, []) ∧ triggerGameWin s1 = (s1, []) := by
  unfold triggerGameOver at h1
  rw [if_neg (by simp [hgo])] at h1
  simp only [Prod.mk.injEq] at h1
  obtain ⟨ha, hb⟩ := h1
  subst ha
  subst hb
  refine ⟨rfl, rfl, ?_, ?_⟩
  · simp [triggerGameOver]
  · simp [triggerGameWin]

/-- C6 witness: the fresh playing state, killed once. -/
theorem trigger_game_over_idempotent_witness :
    ({ state0 with phase := Phase.gameOver, gameOver := true } : GameState).gameOver = true ∧
    [Ev.gameOver] = [Ev.gameOver] ∧
    triggerGameOver { state0 with phase := Phase.gameOver, gameOver := true } =
      ({ state0 with phase := Phase.gameOver, gameOver := true }, []) ∧
    triggerGameWin { state0 with phase := Phase.gameOver, gameOver := true } =
      ({ state0 with phase := Phase.gameOver, gameOver := true }, []) :=
  trigger_game_over_idempotent state0
    { state0 with phase := Phase.gameOver, gameOver := true } [Ev.gameOver]
    rfl rfl

/-- C10: a wrong answer during play leaves the whole game state unchanged —
phase, score, level, `currentAnswer`, enemies, projectiles, `bossActive`
and `bossObject` keep their values — and produces exactly the `incorrect`
notification (plus out-of-scope transient visuals). -/
theorem incorrect_answer_preserves_state (env : Env) (s : GameState) (i : Nat)
    (ans : Int) (hphase : s.phase = Phase.playing) (hpause : s.paused = false)
    (ht : answerTruthy s.currentAnswer = true)
    (hwrong : s.currentAnswer ≠ some ans) :
    step env (s, i) (GameOp.answer ans) = some (s, [Ev.incorrect], i) := by
  simp only [step]
  rw [if_pos ⟨hphase, hpause, ht⟩]
  rw [if_neg hwrong]
  rfl

/-- C10 witness: answering 3 when the answer is 2. -/
theorem incorrect_answer_preserves_state_witness :
    step env0 (state0', 2) (GameOp.answer 3) = some (state0', [Ev.incorrect], 2) :=
  incorrect_answer_preserves_state env0 state0' 2 3 rfl rfl (by decide)
    (by decide)

/-- C2 counterexample: with a theme awarding 500 points per correct answer,
the state right after the answer has score 500 but level still 1, while
`500 / SCORE_TO_LEVEL_UP + 1 = 2` — the level recompute does not happen in
`handleCorrectAnswer` itself. -/
theorem level_lags_score_mutation_cex :
    scoreLevelOf (runFromStart env500 0 0 [GameOp.answer 2]) = some (500, 1) ∧
    500 / env500.cfg.SCORE_TO_LEVEL_UP + 1 ≠ 1 := by
  refine ⟨?_, by decide⟩
  rw [runC2]
  rfl

/-- C2 (amended): along every run the level never exceeds
`score / SCORE_TO_LEVEL_UP + 1`, and after the next playing unpaused
animation frame the level equals exactly that value — the recompute is
deferred to the next tick's `updateUI`, not performed at scoring time. -/
theorem level_recompute_on_next_tick (env : Env) (t0 : ℚ) (i0 : Nat)
    (ops : List GameOp) (t : ℚ) (mid out : GameState × List Ev × Nat)
    (hmid : runFromStart env t0 i0 ops = some mid)
    (hout : runFromStart env t0 i0 (ops ++ [GameOp.frame t]) = some out)
    (hphase : mid.1.phase = Phase.playing) (hpause : mid.1.paused = false) :
    mid.1.level ≤ mid.1.score / env.cfg.SCORE_TO_LEVEL_UP + 1 ∧
    out.1.level = out.1.score / env.cfg.SCORE_TO_LEVEL_UP + 1 := by
  have hinv := (runFromStart_inv env t0 i0 ops mid hmid).1
  refine ⟨hinv, ?_⟩
  rw [runFromStart_append, hmid] at hout
  dsimp only at hout
  rw [run_single] at hout
  have hstep : step env (mid.1, mid.2.2) (GameOp.frame t) =
      some ({ (updatePlaying env mid.1 t
          (t - (if mid.1.lastTime = 0 then t else mid.1.lastTime)) mid.2.2).1
            with lastTime := t },
        (updatePlaying env mid.1 t
          (t - (if mid.1.lastTime = 0 then t else mid.1.lastTime)) mid.2.2).2.1,
        (updatePlaying env mid.1 t
          (t - (if mid.1.lastTime = 0 then t else mid.1.lastTime)) mid.2.2).2.2) := by
    simp only [step]
    rw [if_pos ⟨hphase, hpause⟩]
  rw [hstep] at hout
  dsimp only at hout
  simp only [Option.some.injEq] at hout
  subst hout
  exact updatePlaying_level_eq env mid.1 t _ mid.2.2 hinv

/-- C2 witness: the 1000-point answer followed by one frame — the level is
behind right after the answer (1 ≤ 3) and equals score/500 + 1 = 3 after
the frame. -/
theorem level_recompute_on_next_tick_witness :
    stateMid9.level ≤ stateMid9.score / env1000.cfg.SCORE_TO_LEVEL_UP + 1 ∧
    stateC9.level = stateC9.score / env1000.cfg.SCORE_TO_LEVEL_UP + 1 :=
  level_recompute_on_next_tick env1000 0 0 [GameOp.answer 2] 1
    (stateMid9, [Ev.correct], 2) (stateC9, [Ev.correct, Ev.levelUp], 2)
    runC9mid runC9 rfl rfl

/-- C9 counterexample: a single 1000-point answer crosses two level
thresholds (level 1 → 3 with SCORE_TO_LEVEL_UP = 500), yet the following
tick emits exactly one levelUp notification, not one per threshold. -/
theorem multi_threshold_single_notification_cex :
    levelCountOf (runFromStart env1000 0 0 [GameOp.answer 2, GameOp.frame 1]) =
      some (3, 1) ∧ (3:Nat) ≠ 1 + 1 := by
  refine ⟨?_, by decide⟩
  rw [runC9]
  rfl

/-- C9 (amended): every emitted levelUp really is a level increase — over
any run, `count levelUp + 1 ≤ final level` — but a single notification can
cover a jump over several thresholds: whenever the level is behind the
score, the UI recompute emits exactly one levelUp and sets the level
straight to `score / SCORE_TO_LEVEL_UP + 1`. -/
theorem level_up_notification_coverage (env : Env) (t0 : ℚ) (i0 : Nat)
    (ops : List GameOp) (out : GameState × List Ev × Nat)
    (h : runFromStart env t0 i0 ops = some out) (cfg : Config) (s : GameState)
    (hlt : s.level < s.score / cfg.SCORE_TO_LEVEL_UP + 1) :
    out.2.1.count Ev.levelUp + 1 ≤ out.1.level ∧
    (updateUI cfg s).2 = [Ev.levelUp] ∧
    (updateUI cfg s).1.level = s.score / cfg.SCORE_TO_LEVEL_UP + 1 :=
  ⟨(runFromStart_inv env t0 i0 ops out h).2.2.1,
   (updateUI_emit cfg s hlt).1, (updateUI_emit cfg s hlt).2⟩

/-- C9 witness: the run of the counterexample together with the lagging
state `stateMid9`. -/
theorem level_up_notification_coverage_witness :
    ([Ev.correct, Ev.levelUp].count Ev.levelUp) + 1 ≤ stateC9.level ∧
    (updateUI env1000.cfg stateMid9).2 = [Ev.levelUp] ∧
    (updateUI env1000.cfg stateMid9).1.level =
      stateMid9.score / env1000.cfg.SCORE_TO_LEVEL_UP + 1 :=
  level_up_notification_coverage env1000 0 0 [GameOp.answer 2, GameOp.frame 1]
    (stateC9, [Ev.correct, Ev.levelUp], 2) runC9 env1000.cfg stateMid9
    (by decide)

/-- C7: the boss latch — `bossActive` never resets within a session: any
extension of a run that reached `bossActive = true` keeps it true, any
single step from a boss-active state keeps it true, and a whole run emits
the bossSpawn cue (and hence spawns the boss) at most once. -/
theorem boss_latch_single_spawn (env : Env) (t0 : ℚ) (i0 : Nat)
    (ops more : List GameOp) (out out' : GameState × List Ev × Nat)
    (h : runFromStart env t0 i0 ops = some out)
    (h' : runFromStart env t0 i0 (ops ++ more) = some out')
    (s2 : GameState) (i2 : Nat) (op2 : GameOp)
    (out2 : GameState × List Ev × Nat) (hB : s2.bossActive = true)
    (hstep : step env (s2, i2) op2 = some out2) :
    (out.1.bossActive = true → out'.1.bossActive = true) ∧
    out'.2.1.count Ev.bossSpawn ≤ 1 ∧
    out2.1.bossActive = true := by
  have hcount := (runFromStart_inv env t0 i0 (ops ++ more) out' h').2.2.2
  refine ⟨?_, hcount, ?_⟩
  · intro hBA
    rw [runFromStart_append, h] at h'
    dsimp only at h'
    split at h'
    · exact absurd h' (by simp)
    · rename_i r2 heq2
      simp only [Option.some.injEq] at h'
      obtain ⟨b1, b2, b3, b4, b5⟩ := run_spec env more out.1 out.2.2 r2 heq2
      have hfst : out'.1 = r2.1 := by rw [← h']
      rw [hfst]
      rcases b4 with ⟨hsame, -⟩ | ⟨hfalse, -, -⟩
      · rw [hsame, hBA]
      · rw [hBA] at hfalse
        exact absurd hfalse (by simp)
  · rcases (step_spec env s2 i2 op2 out2 hstep).2.2.2.1 with
      ⟨hsame, -⟩ | ⟨hfalse, -, -⟩
    · rw [hsame, hB]
    · rw [hB] at hfalse
      exact absurd hfalse (by simp)

/-- C7 witness: the empty run plus one pause toggle from a boss-active
state. -/
theorem boss_latch_single_spawn_witness :
    (state0'.bossActive = true → state0'.bossActive = true) ∧
    ([] : List Ev).count Ev.bossSpawn ≤ 1 ∧
    (togglePause stateBoss 5).bossActive = true :=
  boss_latch_single_spawn env0 0 0 [] [] (state0', [], 2) (state0', [], 2)
    runC7nil runC7nil stateBoss 2 (GameOp.pauseToggle 5)
    (togglePause stateBoss 5, [], 2) rfl rfl

/-- C3 counterexample: on `stateC3`'s tick the enemy update latches game
over (an enemy reached depth 0), yet the very same tick's projectile
update still kills the other enemy and awards 50 points after the game
ended, and the tick emits the gameOver cue followed by an enemyHit cue. -/
theorem tick_continues_after_game_over_cex :
    stateC3.score = 0 ∧ c3result.1.gameOver = true ∧ c3result.1.score = 50 ∧
    c3result.2.1 = [Ev.gameOver, Ev.enemyHit] := by
  refine ⟨rfl, ?_, ?_, ?_⟩ <;> rw [c3result_eq] <;> decide

/-- C3 (amended): the game-over short-circuit aborts only the enemy loop
itself — enemies before the fatal one (in backward iteration order) keep
their pre-step values — while `updatePlaying` still runs the projectile
update and the UI recompute of the same tick on the state the enemy update
returned. -/
theorem game_over_short_circuit_scope (dt : ℚ) (pre post : List Enemy)
    (e : Enemy) (hpost : ∀ f ∈ post, ¬ (stepEnemy dt f).z ≤ 0)
    (he : (stepEnemy dt e).z ≤ 0) (env : Env) (s : GameState) (t dt2 : ℚ)
    (i : Nat) (sE : GameState) (evE : List Ev) (iE : Nat) (sP : GameState)
    (evP : List Ev) (iP : Nat) (hb : s.bossActive = false)
    (hsc : s.score < env.cfg.BOSS_TRIGGER_SCORE)
    (hE : updateEnemies env s t dt2 i = (sE, evE, iE))
    (hP : updateProjectiles env sE iE = (sP, evP, iP)) :
    updateEnemyLoop dt (pre ++ e :: post) =
      (pre ++ stepEnemy dt e :: post.map (stepEnemy dt), true) ∧
    updatePlaying env s t dt2 i =
      ((updateUI env.cfg sP).1, evE ++ evP ++ (updateUI env.cfg sP).2, iP) := by
  refine ⟨updateEnemyLoop_shortCircuit dt pre post e hpost he, ?_⟩
  simp only [updatePlaying]
  rw [show bossCheck env s t = (s, []) from by
    simp only [bossCheck]
    rw [if_neg (by rintro ⟨h1, h2⟩; omega)]]
  simp only [entityUpdate]
  rw [if_neg (by simp [hb])]
  simp [hE, hP]

/-- C3 witness: the counterexample scene itself — `enemyA` dies this tick
while the backward loop has not yet reached it (`post = [enemyB]` is
stepped, `pre = []`), and the tick still composes projectile update and UI
recompute after the enemy update. -/
theorem game_over_short_circuit_scope_witness :
    updateEnemyLoop 1 ([] ++ enemyA :: [enemyB]) =
      ([] ++ stepEnemy 1 enemyA :: [enemyB].map (stepEnemy 1), true) ∧
    updatePlaying env0 stateC3 1 1 0 =
      ((updateUI env0.cfg stateC3f).1,
        [Ev.gameOver] ++ [Ev.enemyHit] ++ (updateUI env0.cfg stateC3f).2, 1) :=
  game_over_short_circuit_scope 1 [] [enemyB] enemyA
    (by
      intro f hf
      rw [List.mem_singleton] at hf
      subst hf
      norm_num [stepEnemy, enemyB, enemyA])
    (by norm_num [stepEnemy, enemyA])
    env0 stateC3 1 1 0 stateC3' [Ev.gameOver] 0 stateC3f [Ev.enemyHit] 1
    rfl (by decide) updateEnemies_stateC3 updateProjectiles_stateC3

/-- C8: resolution of a single arrived enemy projectile.  When the target
is still alive in the collection (ids are unique), the projectile is
consumed, exactly one enemyHit cue fires, and the hit is applied exactly
once: a target with more than 1 hp merely loses 1 hp (no score, no
removal), a target with at most 1 hp is removed — its id disappears, the
list shrinks by one — and the kill score is awarded once.  When the target
id is no longer present, the arrival is a silent no-op apart from the
projectile's own removal: no cue, no score, no enemy change, no random
draw. -/
theorem projectile_arrival_resolution (env : Env) (s : GameState)
    (p : Projectile) (i : Nat) (e : Enemy) (hps : s.projectiles = [p])
    (hbs : p.isBossShot = false) (harr : 1 ≤ p.progress + p.speed)
    (hmem : e ∈ s.enemies) (hid : e.id = p.targetId)
    (hnodup : (s.enemies.map Enemy.id).Nodup) (s2 : GameState)
    (p2 : Projectile) (i2 : Nat) (hps2 : s2.projectiles = [p2])
    (hbs2 : p2.isBossShot = false) (harr2 : 1 ≤ p2.progress + p2.speed)
    (habs : ∀ f ∈ s2.enemies, ¬ f.id = p2.targetId) :
    (updateProjectiles env s i).1.projectiles = [] ∧
    (updateProjectiles env s i).2.1 = [Ev.enemyHit] ∧
    (1 < e.hp →
      (updateProjectiles env s i).1.score = s.score ∧
      (updateProjectiles env s i).1.enemies.map Enemy.id =
        s.enemies.map Enemy.id ∧
      (updateProjectiles env s i).1.enemies.find?
        (fun f => f.id = p.targetId) = some (hitTarget env i e) ∧
      (hitTarget env i e).hp = e.hp - 1) ∧
    (e.hp ≤ 1 →
      (updateProjectiles env s i).1.score = s.score +
        (if e.isTough then env.cfg.SCORE_PER_TOUGH_KILL
          else env.cfg.SCORE_PER_KILL) ∧
      (updateProjectiles env s i).1.enemies.map Enemy.id =
        (s.enemies.map Enemy.id).erase p.targetId ∧
      ¬ p.targetId ∈ (updateProjectiles env s i).1.enemies.map Enemy.id ∧
      (updateProjectiles env s i).1.enemies.length + 1 =
        s.enemies.length) ∧
    updateProjectiles env s2 i2 = ({ s2 with projectiles := [] }, [], i2) := by
  have hone := updateProjectiles_single env s p i hps harr
  have hfind : s.enemies.find? (fun f => f.id = p.targetId) = some e :=
    find?_of_nodup_ids e p.targetId hid s.enemies hnodup hmem
  refine ⟨?_, ?_, ?_, ?_, ?_⟩
  · rw [hone]
  · rw [hone]
    by_cases hhp : e.hp ≤ 1
    · rw [resolveArrival_kill env { p with progress := p.progress + p.speed } s i e hbs hfind hhp]
    · rw [resolveArrival_wound env { p with progress := p.progress + p.speed } s i e hbs hfind (by omega)]
  · intro halive
    rw [hone, resolveArrival_wound env { p with progress := p.progress + p.speed } s i e hbs hfind halive]
    refine ⟨rfl, ?_, ?_, rfl⟩
    · exact mapHit_ids p.targetId (hitTarget env i e) hid s.enemies
    · exact find?_mapHit p.targetId (hitTarget env i e) hid s.enemies
        ⟨e, hmem, hid⟩
  · intro hdead
    rw [hone, resolveArrival_kill env { p with progress := p.progress + p.speed } s i e hbs hfind hdead]
    have hids : (((s.enemies.map
        (fun f => if f.id = p.targetId then hitTarget env i e else f)).eraseP
          (fun f => f.id = p.targetId)).map Enemy.id) =
        (s.enemies.map Enemy.id).erase p.targetId := by
      rw [erasePHit_ids p.targetId]
      rw [mapHit_ids p.targetId (hitTarget env i e) hid]
    have hmemid : p.targetId ∈ s.enemies.map Enemy.id :=
      hid ▸ List.mem_map_of_mem Enemy.id hmem
    refine ⟨rfl, hids, ?_, ?_⟩
    · show ¬ p.targetId ∈ ((s.enemies.map
        (fun f => if f.id = p.targetId then hitTarget env i e else f)).eraseP
          (fun f => f.id = p.targetId)).map Enemy.id
      rw [hids]
      exact hnodup.not_mem_erase
    · show ((s.enemies.map
        (fun f => if f.id = p.targetId then hitTarget env i e else f)).eraseP
          (fun f => f.id = p.targetId)).length + 1 = s.enemies.length
      have h1 : (((s.enemies.map
          (fun f => if f.id = p.targetId then hitTarget env i e else f)).eraseP
            (fun f => f.id = p.targetId)).map Enemy.id).length =
          ((s.enemies.map Enemy.id).erase p.targetId).length := by rw [hids]
      simp only [List.length_map] at h1
      have h2 : ((s.enemies.map Enemy.id).erase p.targetId).length =
          (s.enemies.map Enemy.id).length - 1 :=
        List.length_erase_of_mem hmemid
      simp only [List.length_map] at h2
      have h4 : 0 < s.enemies.length := List.length_pos_of_mem hmem
      omega
  · rw [updateProjectiles_single env s2 p2 i2 hps2 harr2,
      resolveArrival_noTarget env { p2 with progress := p2.progress + p2.speed } s2 i2 hbs2 habs]

/-- C8 witness: a 1-hp enemy with id 7 killed by an arriving projectile,
and a projectile aimed at the absent id 99 resolving as a no-op. -/
theorem projectile_arrival_resolution_witness :
    (updateProjectiles env0 stateW 0).1.projectiles = [] ∧
    (updateProjectiles env0 stateW 0).2.1 = [Ev.enemyHit] ∧
    (1 < enemyW.hp →
      (updateProjectiles env0 stateW 0).1.score = stateW.score ∧
      (updateProjectiles env0 stateW 0).1.enemies.map Enemy.id =
        stateW.enemies.map Enemy.id ∧
      (updateProjectiles env0 stateW 0).1.enemies.find?
        (fun f => f.id = projW.targetId) = some (hitTarget env0 0 enemyW) ∧
      (hitTarget env0 0 enemyW).hp = enemyW.hp - 1) ∧
    (enemyW.hp ≤ 1 →
      (updateProjectiles env0 stateW 0).1.score = stateW.score +
        (if enemyW.isTough then env0.cfg.SCORE_PER_TOUGH_KILL
          else env0.cfg.SCORE_PER_KILL) ∧
      (updateProjectiles env0 stateW 0).1.enemies.map Enemy.id =
        (stateW.enemies.map Enemy.id).erase projW.targetId ∧
      ¬ projW.targetId ∈ (updateProjectiles env0 stateW 0).1.enemies.map
          Enemy.id ∧
      (updateProjectiles env0 stateW 0).1.enemies.length + 1 =
        stateW.enemies.length) ∧
    updateProjectiles env0 stateW2 0 = ({ stateW2 with projectiles := [] }, [], 0) :=
  projectile_arrival_resolution env0 stateW projW 0 enemyW rfl rfl
    (by norm_num [projW, projAB]) (List.mem_singleton.mpr rfl) rfl (by decide)
    stateW2 projW2 0 rfl rfl (by norm_num [projW2, projAB]) (by decide)
